import Mathlib

/-!
EICG4dRICHSteppingAction: the hit-construction state machine of the dRICH.

A shallow embedding of `simulation/g4simulation/g4drich/EICG4dRICHSteppingAction.cc`
(and the enumerations of `EICG4dRICHSteppingAction.h`).

Conventions of the embedding

* The accumulator's member variables are the fields of `State`; one call of
  `UserSteppingAction` maps a state and a step to an `Outcome`.
* `gSystem->Exit(1)` is the outcome `fatal`, carrying the state at the moment
  of the exit; a normal return is `returned b s`.
* Energies are exact rationals.  Coordinates and times are `G4double`: either a
  finite rational or `nonfinite` (NaN, infinities), which is all `std::isfinite`
  distinguishes.
* Diagnostic output (`std::cout`, `std::cerr`, everything gated by `Verbosity()`)
  is not modelled: it changes no member variable.
* The hit container handle resolved by `SetInterfacePointers` is taken as valid
  (the source dereferences `m_SaveHitContainer` unconditionally); `storage` is
  the content of that container, `AddHit(petal, hit)` appends `(petal, hit)`.
* `G4StepPoint::GetPhysicalVolume()` and `GetTouchableHandle()->GetVolume()`
  designate the same volume in Geant4, so a step point carries one volume.
-/

namespace DRich

/-! ## Transport-engine data (Geant4, external) -/

/-- Double-precision quantity: a finite value (taken as an exact rational) or a
non-finite one. -/
inductive G4double where
  | finite (v : ℚ)
  | nonfinite
  deriving DecidableEq

/-- Embedding of `std::isfinite`. -/
def G4double.isfinite : G4double → Bool
  | .finite _ => true
  | .nonfinite => false

/-- Division of a double by a unit constant (`x / cm`, `t / nanosecond`). -/
def G4double.div (x : G4double) (u : ℚ) : G4double :=
  match x with
  | .finite v => if u = 0 then .nonfinite else .finite (v / u)
  | .nonfinite => .nonfinite

/-- Three-vector of doubles (`G4ThreeVector`). -/
structure G4ThreeVector where
  x : G4double
  y : G4double
  z : G4double
  deriving DecidableEq

/-- Component-wise division by a unit constant. -/
def G4ThreeVector.div (v : G4ThreeVector) (u : ℚ) : G4ThreeVector :=
  { x := v.x.div u, y := v.y.div u, z := v.z.div u }

/-- Enumeration `G4StepStatus` of Geant4, in declaration order. -/
inductive G4StepStatus where
  | fWorldBoundary
  | fGeomBoundary
  | fAtRestDoItProc
  | fAlongStepDoItProc
  | fPostStepDoItProc
  | fUserDefinedLimit
  | fExclusivelyForcedProc
  | fUndefined
  deriving DecidableEq

/-- Integer value of a step status, as stored in `m_SavePreStepStatus` and
`m_SavePostStepStatus`. -/
def G4StepStatus.toInt : G4StepStatus → Int
  | .fWorldBoundary => 0
  | .fGeomBoundary => 1
  | .fAtRestDoItProc => 2
  | .fAlongStepDoItProc => 3
  | .fPostStepDoItProc => 4
  | .fUserDefinedLimit => 5
  | .fExclusivelyForcedProc => 6
  | .fUndefined => 7

/-- Enumeration `G4TrackStatus` of Geant4. -/
inductive G4TrackStatus where
  | fAlive
  | fStopButAlive
  | fStopAndKill
  | fKillTrackAndSecondaries
  | fSuspend
  | fPostponeToNextEvent
  deriving DecidableEq

/-- Physical volume: the stepping action reads its name and hands it to the
detector's membership and numbering services. -/
structure G4VPhysicalVolume where
  name : String
  copyNo : Int
  deriving DecidableEq

/-- Substring test on character lists: `pat` occurs somewhere in the list. -/
def containsChars (pat : List Char) : List Char → Bool
  | [] => pat.isEmpty
  | c :: cs => pat.isPrefixOf (c :: cs) || containsChars pat cs

/-- Embedding of `G4String::contains`: `pat` is a substring of `s`. -/
def G4String.contains (s pat : String) : Bool :=
  containsChars pat.toList s.toList

/-- Information attached to a track (`G4VUserTrackInformation`): either a
`PHG4TrackUserInfoV1` (the `dynamic_cast` succeeds) or something else. -/
inductive G4VUserTrackInformation where
  | PHG4TrackUserInfoV1 (userTrackId : Int)
  | other
  deriving DecidableEq

/-- Step point (`G4StepPoint`). -/
structure G4StepPoint where
  position : G4ThreeVector
  globalTime : G4double
  stepStatus : G4StepStatus
  volume : G4VPhysicalVolume
  deriving DecidableEq

/-- Track (`G4Track`). `creatorProcess` is `none` for a null creator process,
otherwise the process name. -/
structure G4Track where
  trackID : Int
  parentID : Int
  particleName : String
  pdgEncoding : Int
  creatorProcess : Option String
  trackStatus : G4TrackStatus
  momentum : G4ThreeVector
  momentumDirection : G4ThreeVector
  vertexPosition : G4ThreeVector
  vertexMomentumDirection : G4ThreeVector
  userInformation : Option G4VUserTrackInformation
  deriving DecidableEq

/-- Step (`G4Step`) as read by the stepping action. -/
structure G4Step where
  preStepPoint : G4StepPoint
  postStepPoint : G4StepPoint
  track : G4Track
  totalEnergyDeposit : ℚ
  nonIonizingEnergyDeposit : ℚ
  deriving DecidableEq

/-! ## Hit record and collaborators -/

/-- Modelled from the spec: the class `EICG4dRICHHit` (EICG4dRICHHit.h) is not
among the sources; the record has the fields the spec's data model lists, one
per setter the stepping action calls (index 0 is the entry point, index 1 the
exit point). -/
structure EICG4dRICHHit where
  hit_id : Int
  trkid : Int
  parent_id : Int
  pdg : Int
  particle_name : String
  process : String
  hit_type_name : String
  hit_subtype_name : String
  petal : Int
  psst : Int
  position0 : G4ThreeVector
  position1 : G4ThreeVector
  t0 : G4double
  t1 : G4double
  momentum : G4ThreeVector
  momentum_dir : G4ThreeVector
  vertex_position : G4ThreeVector
  vertex_momentum_dir : G4ThreeVector
  edep : ℚ
  eion : ℚ
  deriving DecidableEq

/-- Accessor `get_x(0)`: the entry x-coordinate. -/
def EICG4dRICHHit.get_x0 (h : EICG4dRICHHit) : G4double := h.position0.x

/-- Collaborators and constants the stepping action uses and that are declared
outside the sources at hand: the detector's services (`IsInDetector`,
`GetPetal`, `GetPSST` of `EICG4dRICHDetector`), the unit constants of
`G4SystemOfUnits.hh`, the default-constructed hit and `EICG4dRICHHit::Reset`. -/
structure Env where
  IsInDetector : G4VPhysicalVolume → Int
  GetPetal : G4VPhysicalVolume → Int
  GetPSST : G4VPhysicalVolume → Int
  cm : ℚ
  GeV : ℚ
  nanosecond : ℚ
  newHit : EICG4dRICHHit
  Reset : EICG4dRICHHit → EICG4dRICHHit

/-- Effects on the truth record attached to a track
(`PHG4Shower::add_g4hit_id`, `PHG4TrackUserInfoV1::SetKeep`). -/
inductive TruthEvent where
  | add_g4hit_id (userTrackId : Int) (hit_id : Int)
  | SetKeep (userTrackId : Int)
  deriving DecidableEq

/-! ## Enumerations of the header -/

/-- Members of `enum hitTypes`. -/
abbrev hEntrance : Int := 0
/-- Vessel exit. -/
abbrev hExit : Int := 1
/-- Photosensor hit. -/
abbrev hPSST : Int := 2
/-- None of the above. -/
abbrev hIgnore : Int := 3

/-- Members of `enum hitSubtypes`. -/
abbrev entPrimary : Int := 0
/-- Entrance of a secondary. -/
abbrev entSecondary : Int := 1
/-- Entrance from PostStepDoItVector. -/
abbrev entPostStep : Int := 2
/-- Primary track exit. -/
abbrev exPrimary : Int := 3
/-- Secondary track exit. -/
abbrev exSecondary : Int := 4
/-- Optical photon on the photosensor. -/
abbrev psOptical : Int := 5
/-- Non-optical photon on the photosensor. -/
abbrev psGamma : Int := 6
/-- Non-photon on the photosensor. -/
abbrev psOther : Int := 7
/-- Unknown hit. -/
abbrev subtypeUnknown : Int := 8

/-- Table `hitTypeStr` as filled by the constructor (empty string elsewhere). -/
def hitTypeStr (i : Int) : String :=
  if i = hEntrance then "entrance"
  else if i = hExit then "exit"
  else if i = hPSST then "psst"
  else if i = hIgnore then "ignore"
  else ""

/-- Table `hitSubtypeStr` as filled by the constructor (empty string elsewhere). -/
def hitSubtypeStr (i : Int) : String :=
  if i = entPrimary then "primary"
  else if i = entSecondary then "secondary"
  else if i = entPostStep then "postStep"
  else if i = exPrimary then "primary"
  else if i = exSecondary then "secondary"
  else if i = psOptical then "optical"
  else if i = psGamma then "gamma"
  else if i = psOther then "other"
  else if i = subtypeUnknown then "unknown"
  else ""

/-! ## The accumulator -/

/-- Member variables of `EICG4dRICHSteppingAction`, with the content of the hit
container (`storage`) and the effects on attached truth records (`truth`). -/
structure State where
  m_Hit : Option EICG4dRICHHit
  m_SaveVolPre : Option G4VPhysicalVolume
  m_SaveVolPost : Option G4VPhysicalVolume
  m_SaveTrackId : Int
  m_SavePreStepStatus : Int
  m_SavePostStepStatus : Int
  m_ActiveFlag : Int
  m_EdepSum : ℚ
  m_EionSum : ℚ
  hitType : Int
  hitSubtype : Int
  storage : List (Int × EICG4dRICHHit)
  truth : List TruthEvent
  deriving DecidableEq

/-- Result of one call: `gSystem->Exit(1)` was reached (with the state at that
moment), or the call returned a boolean. -/
inductive Outcome where
  | fatal (s : State)
  | returned (b : Bool) (s : State)
  deriving DecidableEq

/-- State carried by an outcome. -/
def Outcome.state : Outcome → State
  | .fatal s => s
  | .returned _ s => s

/-- The call ended in `gSystem->Exit(1)`. -/
def Outcome.isFatal : Outcome → Bool
  | .fatal _ => true
  | .returned _ _ => false

/-- Value returned by the call, if it returned. -/
def Outcome.value : Outcome → Option Bool
  | .fatal _ => none
  | .returned b _ => some b

/-- Constructor: the member initialiser list (lines 43-61), with an empty hit
container. -/
def EICG4dRICHSteppingAction (active : Int) : State :=
  { m_Hit := none
    m_SaveVolPre := none
    m_SaveVolPost := none
    m_SaveTrackId := -1
    m_SavePreStepStatus := -1
    m_SavePostStepStatus := -1
    m_ActiveFlag := active
    m_EdepSum := 0
    m_EionSum := 0
    hitType := -1
    hitSubtype := -1
    storage := []
    truth := [] }

/-- Embedding of `InitHit` (lines 508-524): stamps entry position, entry time and
track ID on the open hit, records the track ID, and zeroes the accumulators
when asked to. -/
def InitHit (env : Env) (s : State) (prePoint_ : G4StepPoint) (aTrack_ : G4Track)
    (resetAccumulators : Bool) : State :=
  let s1 : State :=
    { s with
      m_Hit := s.m_Hit.map fun h =>
        { h with
          position0 := prePoint_.position.div env.cm
          t0 := prePoint_.globalTime.div env.nanosecond
          trkid := aTrack_.trackID }
      m_SaveTrackId := aTrack_.trackID }
  if resetAccumulators then { s1 with m_EdepSum := 0, m_EionSum := 0 } else s1

/-- Hit-type classification of lines 151-167. -/
def classifyHitType (prePointVolName postPointVolName : String) : Int :=
  if G4String.contains prePointVolName "dRICHpetal" &&
      G4String.contains postPointVolName "dRICHpsst" then hPSST
  else if G4String.contains prePointVolName "World" &&
      G4String.contains postPointVolName "dRICHvessel" then hEntrance
  else if G4String.contains prePointVolName "dRICHvessel" &&
      G4String.contains postPointVolName "World" then hExit
  else hIgnore

/-- Truth-info block of lines 310-318: with a `PHG4TrackUserInfoV1` attached, the
hit takes the user track ID and the shower is linked to the hit. -/
def trackTruthInfo (s : State) (aTrack : G4Track) : State :=
  match aTrack.userInformation with
  | some (.PHG4TrackUserInfoV1 uid) =>
    { s with
      m_Hit := s.m_Hit.map fun h => { h with trkid := uid }
      truth := s.truth ++
        [TruthEvent.add_g4hit_id uid (match s.m_Hit with
          | some h => h.hit_id
          | none => 0)] }
  | _ => s

/-- Creation or reuse of the hit in the normal cases (lines 270-285): a new
record when none is open, otherwise the open record, with the accumulators
kept only when the record carries the track ID of the step. -/
def openHit (env : Env) (s : State) (prePoint : G4StepPoint) (aTrack : G4Track) : State :=
  match s.m_Hit with
  | none => InitHit env { s with m_Hit := some env.newHit } prePoint aTrack true
  | some h =>
    if h.trkid ≠ aTrack.trackID then InitHit env s prePoint aTrack true
    else InitHit env s prePoint aTrack false

/-- Hit-creation phase: the `switch` on the pre-step status (lines 205-320),
run on a state whose `hitType` already holds the step's classification. -/
def hitCreation (env : Env) (s : State) (aStep : G4Step) : State :=
  let prePoint := aStep.preStepPoint
  let aTrack := aStep.track
  if prePoint.stepStatus = G4StepStatus.fPostStepDoItProc then
    let s1 : State :=
      if s.m_SavePostStepStatus ≠ G4StepStatus.fGeomBoundary.toInt then s
      else if s.hitType ≠ hEntrance then s
      else { s with hitSubtype := entPostStep }
    if s1.hitType = hEntrance then
      InitHit env { s1 with m_Hit := some env.newHit } prePoint aTrack true
    else s1
  else if prePoint.stepStatus ≠ G4StepStatus.fGeomBoundary ∧
      prePoint.stepStatus ≠ G4StepStatus.fUndefined ∧ s.hitType ≠ hEntrance then s
  else
    trackTruthInfo (openHit env s prePoint aTrack) aTrack

/-- Subtype classification at finalization (the `switch` of lines 404-432). -/
def classifySubtype (hitType hitSubtype : Int) (aTrack : G4Track) : Int :=
  let st : Int :=
    if hitType = hEntrance then
      if hitSubtype ≠ entPostStep then
        if aTrack.trackID = 1 then entPrimary else entSecondary
      else hitSubtype
    else if hitType = hExit then
      if aTrack.trackID = 1 then exPrimary else exSecondary
    else if hitType = hPSST then
      if aTrack.particleName = "opticalphoton" then psOptical
      else if aTrack.particleName = "gamma" then psGamma
      else psOther
    else subtypeUnknown
  if st = -1 then subtypeUnknown else st

/-- Process name stamped at finalization (the `switch` of lines 442-461). -/
def processName (hitType hitSubtype : Int) (aTrack : G4Track) : String :=
  if hitType = hEntrance then
    if hitSubtype = entPostStep then "postStep"
    else if hitSubtype = entPrimary then "primary"
    else match aTrack.creatorProcess with
      | some p => p
      | none => "primary"
  else if hitType = hExit then "exitProcess"
  else match aTrack.creatorProcess with
    | some p => p
    | none => "unknown"

/-- Finalization trigger (lines 387-390). -/
def finalizeTrigger (aStep : G4Step) : Bool :=
  decide (aStep.postStepPoint.stepStatus = G4StepStatus.fGeomBoundary) ||
  decide (aStep.postStepPoint.stepStatus = G4StepStatus.fWorldBoundary) ||
  decide (aStep.postStepPoint.stepStatus = G4StepStatus.fAtRestDoItProc) ||
  decide (aStep.track.trackStatus = G4TrackStatus.fStopAndKill)

/-- Attributes stamped on a kept hit (lines 434-482). -/
def stampHit (env : Env) (s : State) (aStep : G4Step) (petal : Int)
    (h : EICG4dRICHHit) : EICG4dRICHHit :=
  let aTrack := aStep.track
  let postPoint := aStep.postStepPoint
  { h with
    hit_type_name := hitTypeStr s.hitType
    hit_subtype_name := hitSubtypeStr s.hitSubtype
    petal := petal
    psst := env.GetPSST postPoint.volume
    pdg := aTrack.pdgEncoding
    particle_name := aTrack.particleName
    process := processName s.hitType s.hitSubtype aTrack
    parent_id := aTrack.parentID
    position1 := postPoint.position.div env.cm
    momentum := aTrack.momentum.div env.GeV
    momentum_dir := aTrack.momentumDirection
    vertex_position := aTrack.vertexPosition.div env.cm
    vertex_momentum_dir := aTrack.vertexMomentumDirection
    t1 := postPoint.globalTime.div env.nanosecond
    edep := s.m_EdepSum
    eion := s.m_EionSum }

/-- The "save the hit" block (lines 384-501), run after the accumulators were
updated; `hit` is the open hit, which the invariant check found present. -/
def saveHit (env : Env) (s : State) (aStep : G4Step) (petal : Int)
    (hit : EICG4dRICHHit) : State :=
  if finalizeTrigger aStep then
    if s.hitType ≠ hIgnore then
      let s1 : State :=
        { s with hitSubtype := classifySubtype s.hitType s.hitSubtype aStep.track }
      let s2 : State :=
        match aStep.track.userInformation with
        | some (.PHG4TrackUserInfoV1 uid) =>
          { s1 with truth := s1.truth ++ [TruthEvent.SetKeep uid] }
        | _ => s1
      { s2 with
        storage := s2.storage ++ [(petal, stampHit env s2 aStep petal hit)]
        m_Hit := none }
    else { s with m_Hit := some (env.Reset hit) }
  else s

/-- Step energy in GeV (lines 182-191): `(edep, eion)`, both zero on an
entrance step. -/
def stepEnergy (env : Env) (hitType : Int) (aStep : G4Step) : ℚ × ℚ :=
  if hitType ≠ hEntrance then
    (aStep.totalEnergyDeposit / env.GeV,
      (aStep.totalEnergyDeposit - aStep.nonIonizingEnergyDeposit) / env.GeV)
  else (0, 0)

/-- Caching of the step and update of the accumulators (lines 357-369). -/
def updateAccumulators (s : State) (aStep : G4Step) (whichactive : Int)
    (edep eion : ℚ) : State :=
  let s3 : State :=
    { s with
      m_SavePreStepStatus := aStep.preStepPoint.stepStatus.toInt
      m_SavePostStepStatus := aStep.postStepPoint.stepStatus.toInt
      m_SaveVolPre := some aStep.preStepPoint.volume
      m_SaveVolPost := some aStep.postStepPoint.volume }
  let s4 : State := { s3 with m_EdepSum := s3.m_EdepSum + edep }
  if whichactive > 0 then { s4 with m_EionSum := s4.m_EionSum + eion } else s4

/-- Petal number used as storage key (lines 381-382). -/
def petalOf (env : Env) (hitType : Int) (aStep : G4Step) : Int :=
  if hitType = hEntrance then env.GetPetal aStep.postStepPoint.volume
  else env.GetPetal aStep.preStepPoint.volume

/-- Embedding of `UserSteppingAction` (lines 96-505). -/
def UserSteppingAction (env : Env) (s : State) (aStep : G4Step) (was_used : Bool) :
    Outcome :=
  let _ := was_used
  let prePoint := aStep.preStepPoint
  let postPoint := aStep.postStepPoint
  let preVol := prePoint.volume
  let postVol := postPoint.volume
  -- skip this step, if leaving the world
  if postPoint.stepStatus = G4StepStatus.fWorldBoundary then
    Outcome.returned false { s with m_Hit := s.m_Hit.map env.Reset }
  else
    let aTrack := aStep.track
    let whichactive := env.IsInDetector preVol
    -- classify hit type
    let s1 : State := { s with hitType := classifyHitType preVol.name postVol.name }
    -- skip this step, if it is outside the detector, and not an entrance or exit
    if whichactive = 0 ∧ s1.hitType ≠ hEntrance ∧ s1.hitType ≠ hExit then
      Outcome.returned false s1
    else
      -- step energy
      let edep := (stepEnergy env s1.hitType aStep).1
      let eion := (stepEnergy env s1.hitType aStep).2
      -- decide whether a new hit is needed
      let s2 := hitCreation env s1 aStep
      -- sanity checks: a hit exists with a finite entry coordinate
      match s2.m_Hit with
      | none => Outcome.fatal s2
      | some hit =>
        if hit.get_x0.isfinite = false then Outcome.fatal s2
        -- the track is the one the hit was created under
        else if aTrack.trackID ≠ s2.m_SaveTrackId then Outcome.fatal s2
        else
          let s5 := updateAccumulators s2 aStep whichactive edep eion
          let petal := petalOf env s5.hitType aStep
          Outcome.returned true (saveHit env s5 aStep petal hit)

/-! ## Vocabulary of the specification -/

/-- Classification of a step from its two volume names. -/
def stepClass (aStep : G4Step) : Int :=
  classifyHitType aStep.preStepPoint.volume.name aStep.postStepPoint.volume.name

/-- The step leaves the world (first skip, lines 112-118). -/
abbrev leavesWorld (aStep : G4Step) : Prop :=
  aStep.postStepPoint.stepStatus = G4StepStatus.fWorldBoundary

/-- The step is filtered out as outside the detector (second skip, lines 174-180). -/
abbrev outsideFilter (env : Env) (aStep : G4Step) : Prop :=
  env.IsInDetector aStep.preStepPoint.volume = 0 ∧
    stepClass aStep ≠ hEntrance ∧ stepClass aStep ≠ hExit

/-- State after the hit-creation phase of a processed step. -/
def afterCreation (env : Env) (s : State) (aStep : G4Step) : State :=
  hitCreation env { s with hitType := stepClass aStep } aStep

/-- State after the accumulators were updated, for a step that passed the checks. -/
def afterAccumulation (env : Env) (s : State) (aStep : G4Step) : State :=
  updateAccumulators (afterCreation env s aStep) aStep
    (env.IsInDetector aStep.preStepPoint.volume)
    (stepEnergy env (stepClass aStep) aStep).1 (stepEnergy env (stepClass aStep) aStep).2

/-- The invariant checks of lines 325-356 pass on a state. -/
abbrev checksPass (s : State) (aStep : G4Step) : Prop :=
  (∃ h, s.m_Hit = some h ∧ h.get_x0.isfinite = true) ∧ aStep.track.trackID = s.m_SaveTrackId

/-- The record a keep hands to storage: the open hit stamped with the subtype
decided at finalization. -/
def storedHit (env : Env) (s : State) (aStep : G4Step) (petal : Int)
    (hit : EICG4dRICHHit) : EICG4dRICHHit :=
  stampHit env { s with hitSubtype := classifySubtype s.hitType s.hitSubtype aStep.track }
    aStep petal hit

/-- Track ID a freshly initialised hit ends up with: the user track ID when a
`PHG4TrackUserInfoV1` is attached to the track (lines 311-318), the track ID of
the step otherwise. -/
def lineageTrackId (aTrack : G4Track) : Int :=
  match aTrack.userInformation with
  | some (.PHG4TrackUserInfoV1 uid) => uid
  | _ => aTrack.trackID

/-- A hit record with the entry attributes of a step stamped on it: entry
position and time from the pre-step point, and the track ID. -/
def entryStamped (env : Env) (aStep : G4Step) (h : EICG4dRICHHit) : EICG4dRICHHit :=
  { h with
    position0 := aStep.preStepPoint.position.div env.cm
    t0 := aStep.preStepPoint.globalTime.div env.nanosecond
    trkid := lineageTrackId aStep.track }

/-- The default-constructed record with the entry attributes of a step stamped
on it by `InitHit`: entry position and time from the pre-step point, and the
track ID of the step. -/
def newStamped (env : Env) (aStep : G4Step) : EICG4dRICHHit :=
  { env.newHit with
    position0 := aStep.preStepPoint.position.div env.cm
    t0 := aStep.preStepPoint.globalTime.div env.nanosecond
    trkid := aStep.track.trackID }

/-! ## Sample data -/

/-- Modelled from the spec: `EICG4dRICHHit::Reset` and the default constructor
of the hit class are not among the sources; the spec says a reset clears the
record's fields while the memory is retained.  This is the cleared record:
identifiers at a sentinel that is no track ID, coordinates and times not a
number, texts empty, numbers zero. -/
def clearedHit : EICG4dRICHHit :=
  { hit_id := -1
    trkid := -2147483648
    parent_id := 0
    pdg := 0
    particle_name := ""
    process := ""
    hit_type_name := ""
    hit_subtype_name := ""
    petal := 0
    psst := 0
    position0 := ⟨.nonfinite, .nonfinite, .nonfinite⟩
    position1 := ⟨.nonfinite, .nonfinite, .nonfinite⟩
    t0 := .nonfinite
    t1 := .nonfinite
    momentum := ⟨.nonfinite, .nonfinite, .nonfinite⟩
    momentum_dir := ⟨.nonfinite, .nonfinite, .nonfinite⟩
    vertex_position := ⟨.nonfinite, .nonfinite, .nonfinite⟩
    vertex_momentum_dir := ⟨.nonfinite, .nonfinite, .nonfinite⟩
    edep := 0
    eion := 0 }

/-- A detector for the examples: photosensors are active, the other dRICH
volumes passive, everything else outside; petal and sensor numbers are the
copy number.  Units are those of Geant4 (mm, MeV, ns). -/
def sampleEnv : Env :=
  { IsInDetector := fun v =>
      if G4String.contains v.name "dRICHpsst" then 1
      else if G4String.contains v.name "dRICH" then -1
      else 0
    GetPetal := fun v => v.copyNo
    GetPSST := fun v => v.copyNo
    cm := 10
    GeV := 1000
    nanosecond := 1
    newHit := clearedHit
    Reset := fun _ => clearedHit }

/-- The origin. -/
def origin : G4ThreeVector := ⟨.finite 0, .finite 0, .finite 0⟩

/-- A step point of the examples. -/
def samplePoint (status : G4StepStatus) (volName : String) (copyNo : Int) : G4StepPoint :=
  { position := origin, globalTime := .finite 0, stepStatus := status
    volume := ⟨volName, copyNo⟩ }

/-- A track of the examples, alive and without attached information. -/
def sampleTrack (trackID : Int) (particle : String) (creator : Option String) : G4Track :=
  { trackID := trackID
    parentID := trackID - 1
    particleName := particle
    pdgEncoding := 0
    creatorProcess := creator
    trackStatus := .fAlive
    momentum := origin
    momentumDirection := origin
    vertexPosition := origin
    vertexMomentumDirection := origin
    userInformation := none }

/-- A step of the examples. -/
def sampleStep (pre post : G4StepPoint) (trk : G4Track) (total nonIon : ℚ) : G4Step :=
  { preStepPoint := pre, postStepPoint := post, track := trk
    totalEnergyDeposit := total, nonIonizingEnergyDeposit := nonIon }

/-- Scenario C: an optical photon goes from a petal to a photosensor. -/
def photonStep : G4Step :=
  sampleStep (samplePoint .fGeomBoundary "dRICHpetal_2" 2)
    (samplePoint .fGeomBoundary "dRICHpsst_7" 7)
    (sampleTrack 4 "opticalphoton" (some "Cerenkov")) 3 0

/-- Scenario B: a secondary track goes from the vessel to the world. -/
def exitStep : G4Step :=
  sampleStep (samplePoint .fGeomBoundary "dRICHvessel" 0)
    (samplePoint .fGeomBoundary "World" 0)
    (sampleTrack 2 "e-" (some "eIoni")) 2000 500

/-- An entrance step: a secondary enters the vessel from the world and deposits
energy on the way. -/
def entranceStep : G4Step :=
  sampleStep (samplePoint .fGeomBoundary "World" 0)
    (samplePoint .fGeomBoundary "dRICHvessel" 0)
    (sampleTrack 2 "e-" (some "eIoni")) 1000 0

/-- A step inside a petal that ends on a boundary without reaching a sensor:
classification ignore, finalization trigger on. -/
def ignoredStep : G4Step :=
  sampleStep (samplePoint .fGeomBoundary "dRICHpetal_2" 2)
    (samplePoint .fGeomBoundary "dRICHaerogel_2" 2)
    (sampleTrack 5 "pi+" none) 4000 1000

/-- A step far from the detector. -/
def outsideStep : G4Step :=
  sampleStep (samplePoint .fGeomBoundary "World" 0)
    (samplePoint .fGeomBoundary "Magnet" 0)
    (sampleTrack 1 "pi+" none) 1 0

/-- A step inside a petal that neither starts at a boundary nor ends at one. -/
def innerStep : G4Step :=
  sampleStep (samplePoint .fAlongStepDoItProc "dRICHpetal_2" 2)
    (samplePoint .fAlongStepDoItProc "dRICHpetal_2" 2)
    (sampleTrack 5 "pi+" none) 4000 1000

/-- An accumulator with a hit of track 5 open and energy already summed. -/
def openState : State :=
  { EICG4dRICHSteppingAction 1 with
    m_Hit := some { clearedHit with trkid := 5, position0 := origin }
    m_SaveTrackId := 5
    m_EdepSum := 7
    m_EionSum := 2 }

/-- A run of the stepping action: the calls are made one after the other on the
state the previous call left; after a fatal exit no further call is made and
the run has no final state. -/
def runSteps (env : Env) : State → List (G4Step × Bool) → Option State
  | s, [] => some s
  | s, (a, u) :: rest =>
    match UserSteppingAction env s a u with
    | .fatal _ => none
    | .returned _ s' => runSteps env s' rest

/-- The track of the step carries no attached information. -/
abbrev noLineage (aStep : G4Step) : Prop :=
  aStep.track.userInformation = none

/-- Bookkeeping invariant of the accumulator: an open hit whose entry
x-coordinate is finite carries the saved track ID. -/
def hitTrackInv (s : State) : Prop :=
  ∀ h, s.m_Hit = some h → h.get_x0.isfinite = true → h.trkid = s.m_SaveTrackId

/-- Every record in the storage has a finite entry x-coordinate. -/
def storageInv (s : State) : Prop :=
  ∀ p ∈ s.storage, p.2.get_x0.isfinite = true

/-- A step that leaves a petal for a volume outside the detector. -/
def leavingPetalStep : G4Step :=
  sampleStep (samplePoint .fGeomBoundary "dRICHpetal_2" 2)
    (samplePoint .fGeomBoundary "Magnet" 0)
    (sampleTrack 5 "pi+" none) 4000 1000

/-- Scenario A: the primary track goes from the world into the vessel. -/
def primaryEntrance : G4Step :=
  sampleStep (samplePoint .fGeomBoundary "World" 0)
    (samplePoint .fGeomBoundary "dRICHvessel" 0)
    (sampleTrack 1 "pi+" none) 0 0

/-- The same crossing reported with a pre-step status PostStepDoItProc. -/
def postStepEntrance : G4Step :=
  sampleStep (samplePoint .fPostStepDoItProc "World" 0)
    (samplePoint .fGeomBoundary "dRICHvessel" 0)
    (sampleTrack 1 "pi+" none) 0 0

/-- A world-to-vessel crossing of the primary track whose volume names also
match the photosensor pattern. -/
def ambiguousEntrance : G4Step :=
  sampleStep (samplePoint .fGeomBoundary "World_dRICHpetal" 0)
    (samplePoint .fGeomBoundary "dRICHvessel_dRICHpsst" 0)
    (sampleTrack 1 "pi+" none) 0 0

/-- Scenario A with a pre-step point whose x-coordinate is not a number. -/
def nanEntrance : G4Step :=
  { primaryEntrance with
    preStepPoint :=
      { primaryEntrance.preStepPoint with
        position := ⟨.nonfinite, .finite 0, .finite 0⟩ } }

/-- Scenario A with a `PHG4TrackUserInfoV1` of user track ID 9 attached to the
track. -/
def lineageEntrance : G4Step :=
  { primaryEntrance with
    track :=
      { primaryEntrance.track with
        userInformation := some (G4VUserTrackInformation.PHG4TrackUserInfoV1 9) } }

/-- The accumulator with the hit of track 5 open, after a step that ended on a
geometry boundary. -/
def afterBoundaryState : State :=
  { openState with m_SavePostStepStatus := G4StepStatus.fGeomBoundary.toInt }

/-- A step of track 5 inside a petal, reported with pre-step status
PostStepDoItProc. -/
def impossibleStep : G4Step :=
  sampleStep (samplePoint .fPostStepDoItProc "dRICHpetal_2" 2)
    (samplePoint .fAlongStepDoItProc "dRICHpetal_2" 2)
    (sampleTrack 5 "pi+" none) 4000 1000

/-- A step of track 5 that leaves the world from the vessel. -/
def worldStep : G4Step :=
  sampleStep (samplePoint .fGeomBoundary "dRICHvessel" 0)
    (samplePoint .fWorldBoundary "World" 0)
    (sampleTrack 5 "pi+" none) 4000 1000

/-- A step of track 5 from a petal onto a photosensor. -/
def sensorStep : G4Step :=
  sampleStep (samplePoint .fGeomBoundary "dRICHpetal_2" 2)
    (samplePoint .fGeomBoundary "dRICHpsst_7" 7)
    (sampleTrack 5 "pi+" none) 3000 1000

/-- A boundary step of track 5 into a petal that stays inside it: it opens a
hit and does not finalize it. -/
def openingStep : G4Step :=
  sampleStep (samplePoint .fGeomBoundary "dRICHpetal_2" 2)
    (samplePoint .fAlongStepDoItProc "dRICHpetal_2" 2)
    (sampleTrack 5 "pi+" none) 4000 1000

/-- An optical photon reaching a photosensor whose creator process is itself
named "unknown". -/
def unknownCreatorStep : G4Step :=
  sampleStep (samplePoint .fGeomBoundary "dRICHpetal_2" 2)
    (samplePoint .fGeomBoundary "dRICHpsst_7" 7)
    (sampleTrack 4 "opticalphoton" (some "unknown")) 3 0

/-- An optical photon reaching a photosensor, of a track without creator
process. -/
def orphanPhotonStep : G4Step :=
  sampleStep (samplePoint .fGeomBoundary "dRICHpetal_2" 2)
    (samplePoint .fGeomBoundary "dRICHpsst_7" 7)
    (sampleTrack 4 "opticalphoton" none) 3 0

/-! ## Frame lemmas for the phases -/

theorem InitHit_storage (env : Env) (s : State) (p : G4StepPoint) (t : G4Track) (b : Bool) :
    (InitHit env s p t b).storage = s.storage := by
  cases b <;> simp [InitHit]

theorem InitHit_hitType (env : Env) (s : State) (p : G4StepPoint) (t : G4Track) (b : Bool) :
    (InitHit env s p t b).hitType = s.hitType := by
  cases b <;> simp [InitHit]

theorem InitHit_hitSubtype (env : Env) (s : State) (p : G4StepPoint) (t : G4Track) (b : Bool) :
    (InitHit env s p t b).hitSubtype = s.hitSubtype := by
  cases b <;> simp [InitHit]

theorem InitHit_saveTrackId (env : Env) (s : State) (p : G4StepPoint) (t : G4Track) (b : Bool) :
    (InitHit env s p t b).m_SaveTrackId = t.trackID := by
  cases b <;> simp [InitHit]

theorem trackTruthInfo_storage (s : State) (t : G4Track) :
    (trackTruthInfo s t).storage = s.storage := by
  unfold trackTruthInfo
  split <;> rfl

theorem trackTruthInfo_hitType (s : State) (t : G4Track) :
    (trackTruthInfo s t).hitType = s.hitType := by
  unfold trackTruthInfo
  split <;> rfl

theorem trackTruthInfo_hitSubtype (s : State) (t : G4Track) :
    (trackTruthInfo s t).hitSubtype = s.hitSubtype := by
  unfold trackTruthInfo
  split <;> rfl

theorem trackTruthInfo_saveTrackId (s : State) (t : G4Track) :
    (trackTruthInfo s t).m_SaveTrackId = s.m_SaveTrackId := by
  unfold trackTruthInfo
  split <;> rfl

theorem trackTruthInfo_edep (s : State) (t : G4Track) :
    (trackTruthInfo s t).m_EdepSum = s.m_EdepSum := by
  unfold trackTruthInfo
  split <;> rfl

theorem trackTruthInfo_eion (s : State) (t : G4Track) :
    (trackTruthInfo s t).m_EionSum = s.m_EionSum := by
  unfold trackTruthInfo
  split <;> rfl

theorem openHit_storage (env : Env) (s : State) (p : G4StepPoint) (t : G4Track) :
    (openHit env s p t).storage = s.storage := by
  unfold openHit
  split
  · simp [InitHit_storage]
  · split_ifs <;> simp [InitHit_storage]

theorem openHit_hitType (env : Env) (s : State) (p : G4StepPoint) (t : G4Track) :
    (openHit env s p t).hitType = s.hitType := by
  unfold openHit
  split
  · simp [InitHit_hitType]
  · split_ifs <;> simp [InitHit_hitType]

theorem openHit_hitSubtype (env : Env) (s : State) (p : G4StepPoint) (t : G4Track) :
    (openHit env s p t).hitSubtype = s.hitSubtype := by
  unfold openHit
  split
  · simp [InitHit_hitSubtype]
  · split_ifs <;> simp [InitHit_hitSubtype]

theorem openHit_saveTrackId (env : Env) (s : State) (p : G4StepPoint) (t : G4Track) :
    (openHit env s p t).m_SaveTrackId = t.trackID := by
  unfold openHit
  split
  · simp [InitHit_saveTrackId]
  · split_ifs <;> simp [InitHit_saveTrackId]

theorem hitCreation_storage (env : Env) (s : State) (aStep : G4Step) :
    (hitCreation env s aStep).storage = s.storage := by
  unfold hitCreation
  simp only []
  split_ifs <;> simp [InitHit_storage, trackTruthInfo_storage, openHit_storage]

theorem hitCreation_hitType (env : Env) (s : State) (aStep : G4Step) :
    (hitCreation env s aStep).hitType = s.hitType := by
  unfold hitCreation
  simp only []
  split_ifs <;> simp [InitHit_hitType, trackTruthInfo_hitType, openHit_hitType]

theorem updateAccumulators_hitType (s : State) (aStep : G4Step) (w : Int) (e i : ℚ) :
    (updateAccumulators s aStep w e i).hitType = s.hitType := by
  unfold updateAccumulators
  simp only []
  split_ifs <;> rfl

theorem updateAccumulators_hitSubtype (s : State) (aStep : G4Step) (w : Int) (e i : ℚ) :
    (updateAccumulators s aStep w e i).hitSubtype = s.hitSubtype := by
  unfold updateAccumulators
  simp only []
  split_ifs <;> rfl

theorem updateAccumulators_storage (s : State) (aStep : G4Step) (w : Int) (e i : ℚ) :
    (updateAccumulators s aStep w e i).storage = s.storage := by
  unfold updateAccumulators
  simp only []
  split_ifs <;> rfl

theorem updateAccumulators_edep (s : State) (aStep : G4Step) (w : Int) (e i : ℚ) :
    (updateAccumulators s aStep w e i).m_EdepSum = s.m_EdepSum + e := by
  unfold updateAccumulators
  simp only []
  split_ifs <;> rfl

theorem updateAccumulators_eion (s : State) (aStep : G4Step) (w : Int) (e i : ℚ) :
    (updateAccumulators s aStep w e i).m_EionSum =
      if w > 0 then s.m_EionSum + i else s.m_EionSum := by
  unfold updateAccumulators
  simp only []
  split_ifs <;> rfl

theorem afterCreation_hitType (env : Env) (s : State) (aStep : G4Step) :
    (afterCreation env s aStep).hitType = stepClass aStep := by
  simp [afterCreation, hitCreation_hitType]

theorem afterCreation_storage (env : Env) (s : State) (aStep : G4Step) :
    (afterCreation env s aStep).storage = s.storage := by
  simp [afterCreation, hitCreation_storage]

theorem afterAccumulation_hitType (env : Env) (s : State) (aStep : G4Step) :
    (afterAccumulation env s aStep).hitType = stepClass aStep := by
  simp [afterAccumulation, updateAccumulators_hitType, afterCreation_hitType]

theorem afterAccumulation_hitSubtype (env : Env) (s : State) (aStep : G4Step) :
    (afterAccumulation env s aStep).hitSubtype = (afterCreation env s aStep).hitSubtype := by
  simp [afterAccumulation, updateAccumulators_hitSubtype]

theorem afterAccumulation_storage (env : Env) (s : State) (aStep : G4Step) :
    (afterAccumulation env s aStep).storage = s.storage := by
  simp [afterAccumulation, updateAccumulators_storage, afterCreation_storage]

/-! ## The four ways a call ends -/

/-- A step that leaves the world is skipped: the open hit, if any, is reset. -/
theorem UserSteppingAction_world (env : Env) (s : State) (aStep : G4Step) (u : Bool)
    (hw : leavesWorld aStep) :
    UserSteppingAction env s aStep u =
      Outcome.returned false { s with m_Hit := s.m_Hit.map env.Reset } := by
  simp only [leavesWorld] at hw
  simp [UserSteppingAction, hw]

/-- A step filtered out as outside the detector only leaves its classification. -/
theorem UserSteppingAction_outside (env : Env) (s : State) (aStep : G4Step) (u : Bool)
    (hw : ¬ leavesWorld aStep) (ho : outsideFilter env aStep) :
    UserSteppingAction env s aStep u =
      Outcome.returned false { s with hitType := stepClass aStep } := by
  simp only [leavesWorld] at hw
  simp only [outsideFilter, stepClass] at ho
  simp only [UserSteppingAction, if_neg hw, stepClass]
  rw [if_pos ho]

/-- A processed step whose checks fail ends in the fatal exit, in the state left
by the hit-creation phase. -/
theorem UserSteppingAction_fatal (env : Env) (s : State) (aStep : G4Step) (u : Bool)
    (hw : ¬ leavesWorld aStep) (ho : ¬ outsideFilter env aStep)
    (hc : ¬ checksPass (afterCreation env s aStep) aStep) :
    UserSteppingAction env s aStep u = Outcome.fatal (afterCreation env s aStep) := by
  simp only [leavesWorld] at hw
  simp only [outsideFilter, stepClass] at ho
  simp only [checksPass, afterCreation, stepClass] at hc
  simp only [UserSteppingAction, if_neg hw, afterCreation, stepClass]
  rw [if_neg ho]
  split
  · rfl
  · rename_i hit hhit
    split_ifs with h1 h2
    · rfl
    · rfl
    · exfalso
      apply hc
      refine ⟨⟨hit, hhit, ?_⟩, ?_⟩
      · simpa using h1
      · simpa using h2

/-- A processed step whose checks pass accumulates its energy, runs the save
block and returns true. -/
theorem UserSteppingAction_ok (env : Env) (s : State) (aStep : G4Step) (u : Bool)
    (hw : ¬ leavesWorld aStep) (ho : ¬ outsideFilter env aStep) (hit : EICG4dRICHHit)
    (hh : (afterCreation env s aStep).m_Hit = some hit)
    (hfin : hit.get_x0.isfinite = true)
    (htrk : aStep.track.trackID = (afterCreation env s aStep).m_SaveTrackId) :
    UserSteppingAction env s aStep u =
      Outcome.returned true
        (saveHit env (afterAccumulation env s aStep) aStep
          (petalOf env (stepClass aStep) aStep) hit) := by
  simp only [leavesWorld] at hw
  simp only [outsideFilter, stepClass] at ho
  simp only [afterCreation, stepClass] at hh htrk
  simp only [UserSteppingAction, if_neg hw, afterCreation, afterAccumulation, stepClass]
  rw [if_neg ho]
  simp only [hh]
  rw [if_neg (by simp [hfin]), if_neg (by simpa using htrk)]
  simp [updateAccumulators_hitType, hitCreation_hitType]

/-! ## The save block -/

theorem saveHit_noTrigger (env : Env) (s : State) (aStep : G4Step) (petal : Int)
    (hit : EICG4dRICHHit) (ht : finalizeTrigger aStep = false) :
    saveHit env s aStep petal hit = s := by
  simp [saveHit, ht]

theorem saveHit_ignore (env : Env) (s : State) (aStep : G4Step) (petal : Int)
    (hit : EICG4dRICHHit) (ht : finalizeTrigger aStep = true) (hi : s.hitType = hIgnore) :
    saveHit env s aStep petal hit = { s with m_Hit := some (env.Reset hit) } := by
  simp [saveHit, ht, hi]

theorem saveHit_keep (env : Env) (s : State) (aStep : G4Step) (petal : Int)
    (hit : EICG4dRICHHit) (ht : finalizeTrigger aStep = true) (hk : s.hitType ≠ hIgnore) :
    (saveHit env s aStep petal hit).storage =
        s.storage ++ [(petal, storedHit env s aStep petal hit)] ∧
      (saveHit env s aStep petal hit).m_Hit = none ∧
      (saveHit env s aStep petal hit).m_EdepSum = s.m_EdepSum ∧
      (saveHit env s aStep petal hit).m_EionSum = s.m_EionSum ∧
      (saveHit env s aStep petal hit).hitSubtype =
        classifySubtype s.hitType s.hitSubtype aStep.track := by
  simp only [saveHit, ht, if_true, if_pos hk, storedHit]
  split <;> simp [stampHit]

theorem finalizeTrigger_iff (aStep : G4Step) (hw : ¬ leavesWorld aStep) :
    finalizeTrigger aStep = true ↔
      (aStep.postStepPoint.stepStatus = G4StepStatus.fGeomBoundary ∨
        aStep.postStepPoint.stepStatus = G4StepStatus.fAtRestDoItProc ∨
        aStep.track.trackStatus = G4TrackStatus.fStopAndKill) := by
  simp only [leavesWorld] at hw
  simp [finalizeTrigger, hw, or_assoc]

theorem checksPass_of_not_fatal (env : Env) (s : State) (aStep : G4Step) (u : Bool)
    (hw : ¬ leavesWorld aStep) (ho : ¬ outsideFilter env aStep)
    (hf : (UserSteppingAction env s aStep u).isFatal = false) :
    checksPass (afterCreation env s aStep) aStep := by
  by_contra hc
  rw [UserSteppingAction_fatal env s aStep u hw ho hc] at hf
  simp [Outcome.isFatal] at hf

theorem saveHit_edep (env : Env) (s : State) (aStep : G4Step) (petal : Int)
    (hit : EICG4dRICHHit) : (saveHit env s aStep petal hit).m_EdepSum = s.m_EdepSum := by
  unfold saveHit
  split_ifs
  · split <;> rfl
  · rfl
  · rfl

theorem saveHit_eion (env : Env) (s : State) (aStep : G4Step) (petal : Int)
    (hit : EICG4dRICHHit) : (saveHit env s aStep petal hit).m_EionSum = s.m_EionSum := by
  unfold saveHit
  split_ifs
  · split <;> rfl
  · rfl
  · rfl

theorem stepClass_cases (aStep : G4Step) :
    stepClass aStep = hEntrance ∨ stepClass aStep = hExit ∨ stepClass aStep = hPSST ∨
      stepClass aStep = hIgnore := by
  unfold stepClass classifyHitType
  split_ifs <;> simp

/-- Energy sums after a processed step that passed the checks: the sums left by
the creation phase plus the step energy of lines 182-191. -/
theorem sums_after_step (env : Env) (s : State) (aStep : G4Step) (u : Bool)
    (hw : ¬ leavesWorld aStep) (ho : ¬ outsideFilter env aStep)
    (hc : checksPass (afterCreation env s aStep) aStep) :
    (UserSteppingAction env s aStep u).state.m_EdepSum =
        (afterCreation env s aStep).m_EdepSum + (stepEnergy env (stepClass aStep) aStep).1 ∧
    (UserSteppingAction env s aStep u).state.m_EionSum =
        if env.IsInDetector aStep.preStepPoint.volume > 0 then
          (afterCreation env s aStep).m_EionSum + (stepEnergy env (stepClass aStep) aStep).2
        else (afterCreation env s aStep).m_EionSum := by
  obtain ⟨⟨hit, hh, hfin⟩, htrk⟩ := hc
  rw [UserSteppingAction_ok env s aStep u hw ho hit hh hfin htrk]
  simp [Outcome.state, saveHit_edep, saveHit_eion, afterAccumulation,
    updateAccumulators_edep, updateAccumulators_eion]

/-- What a call that changed the storage did: the step was processed, passed the
checks, met the finalization trigger with a classification other than Ignore,
and the record appended is the open hit as stamped by the finalizer. -/
theorem stored_hit_cases (env : Env) (s : State) (aStep : G4Step) (u : Bool)
    (hs : (UserSteppingAction env s aStep u).state.storage ≠ s.storage) :
    ¬ leavesWorld aStep ∧ ¬ outsideFilter env aStep ∧ finalizeTrigger aStep = true ∧
      stepClass aStep ≠ hIgnore ∧
      ∃ hit : EICG4dRICHHit,
        (afterCreation env s aStep).m_Hit = some hit ∧ hit.get_x0.isfinite = true ∧
        aStep.track.trackID = (afterCreation env s aStep).m_SaveTrackId ∧
        (UserSteppingAction env s aStep u).state.storage =
          s.storage ++
            [(petalOf env (stepClass aStep) aStep,
              storedHit env (afterAccumulation env s aStep) aStep
                (petalOf env (stepClass aStep) aStep) hit)] ∧
        (UserSteppingAction env s aStep u).state.hitSubtype =
          classifySubtype (stepClass aStep) (afterCreation env s aStep).hitSubtype
            aStep.track := by
  by_cases hw : leavesWorld aStep
  · rw [UserSteppingAction_world env s aStep u hw] at hs
    simp [Outcome.state] at hs
  by_cases ho : outsideFilter env aStep
  · rw [UserSteppingAction_outside env s aStep u hw ho] at hs
    simp [Outcome.state] at hs
  by_cases hc : checksPass (afterCreation env s aStep) aStep
  swap
  · rw [UserSteppingAction_fatal env s aStep u hw ho hc] at hs
    simp [Outcome.state, afterCreation_storage] at hs
  obtain ⟨⟨hit, hh, hfin⟩, htrk⟩ := hc
  rw [UserSteppingAction_ok env s aStep u hw ho hit hh hfin htrk] at hs ⊢
  simp only [Outcome.state] at hs ⊢
  by_cases ht : finalizeTrigger aStep = true
  swap
  · rw [saveHit_noTrigger env _ aStep _ hit (by simpa using ht)] at hs
    simp [afterAccumulation_storage] at hs
  by_cases hk : stepClass aStep = hIgnore
  · rw [saveHit_ignore env _ aStep _ hit ht (by rw [afterAccumulation_hitType]; exact hk)] at hs
    simp [afterAccumulation_storage] at hs
  have hk2 : (afterAccumulation env s aStep).hitType ≠ hIgnore := by
    rw [afterAccumulation_hitType]; exact hk
  obtain ⟨h1, _, _, _, h5⟩ := saveHit_keep env _ aStep
    (petalOf env (stepClass aStep) aStep) hit ht hk2
  refine ⟨hw, ho, ht, hk, hit, hh, hfin, htrk, ?_, ?_⟩
  · rw [h1, afterAccumulation_storage]
  · rw [h5, afterAccumulation_hitType, afterAccumulation_hitSubtype]

theorem storedHit_names (env : Env) (s : State) (aStep : G4Step) (petal : Int)
    (hit : EICG4dRICHHit) :
    (storedHit env s aStep petal hit).hit_type_name = hitTypeStr s.hitType ∧
    (storedHit env s aStep petal hit).hit_subtype_name =
      hitSubtypeStr (classifySubtype s.hitType s.hitSubtype aStep.track) ∧
    (storedHit env s aStep petal hit).process =
      processName s.hitType (classifySubtype s.hitType s.hitSubtype aStep.track)
        aStep.track := by
  simp [storedHit, stampHit]

/-- In the normal cases of the `switch`, when the step is relevant to the hit
lifecycle, the creation phase opens or reuses the hit and then attaches the
truth information. -/
theorem afterCreation_normal (env : Env) (s : State) (aStep : G4Step)
    (hp : aStep.preStepPoint.stepStatus ≠ G4StepStatus.fPostStepDoItProc)
    (hr : aStep.preStepPoint.stepStatus = G4StepStatus.fGeomBoundary ∨
      aStep.preStepPoint.stepStatus = G4StepStatus.fUndefined ∨
      stepClass aStep = hEntrance) :
    afterCreation env s aStep =
      trackTruthInfo
        (openHit env { s with hitType := stepClass aStep } aStep.preStepPoint aStep.track)
        aStep.track := by
  unfold afterCreation hitCreation
  simp only [if_neg hp]
  rw [if_neg]
  intro hn
  rcases hr with h | h | h
  · exact hn.1 h
  · exact hn.2.1 h
  · exact hn.2.2 h

/-- Normal cases of the creation phase, new-hit path: when no open record
carries the step's track ID, both sums are zeroed. -/
theorem creation_phase_reset (env : Env) (s : State) (aStep : G4Step)
    (hp : aStep.preStepPoint.stepStatus ≠ G4StepStatus.fPostStepDoItProc)
    (hr : aStep.preStepPoint.stepStatus = G4StepStatus.fGeomBoundary ∨
      aStep.preStepPoint.stepStatus = G4StepStatus.fUndefined ∨
      stepClass aStep = hEntrance)
    (hd : ∀ h, s.m_Hit = some h → h.trkid ≠ aStep.track.trackID) :
    (afterCreation env s aStep).m_EdepSum = 0 ∧ (afterCreation env s aStep).m_EionSum = 0 := by
  rw [afterCreation_normal env s aStep hp hr, trackTruthInfo_edep, trackTruthInfo_eion]
  cases hm : s.m_Hit with
  | none => simp [openHit, hm, InitHit]
  | some h => simp [openHit, hm, InitHit, hd h hm]

/-- Normal cases of the creation phase, reuse path: when the open record carries
the step's track ID, both sums are kept. -/
theorem creation_phase_reuse (env : Env) (s : State) (aStep : G4Step)
    (hp : aStep.preStepPoint.stepStatus ≠ G4StepStatus.fPostStepDoItProc)
    (hr : aStep.preStepPoint.stepStatus = G4StepStatus.fGeomBoundary ∨
      aStep.preStepPoint.stepStatus = G4StepStatus.fUndefined ∨
      stepClass aStep = hEntrance)
    (h : EICG4dRICHHit) (hm : s.m_Hit = some h) (he : h.trkid = aStep.track.trackID) :
    (afterCreation env s aStep).m_EdepSum = s.m_EdepSum ∧
      (afterCreation env s aStep).m_EionSum = s.m_EionSum := by
  rw [afterCreation_normal env s aStep hp hr, trackTruthInfo_edep, trackTruthInfo_eion]
  simp [openHit, hm, InitHit, he]

/-! ## Invariants along a run -/

theorem updateAccumulators_hit (s : State) (aStep : G4Step) (w : Int) (e i : ℚ) :
    (updateAccumulators s aStep w e i).m_Hit = s.m_Hit := by
  unfold updateAccumulators
  simp only []
  split_ifs <;> rfl

theorem updateAccumulators_saveTrackId (s : State) (aStep : G4Step) (w : Int) (e i : ℚ) :
    (updateAccumulators s aStep w e i).m_SaveTrackId = s.m_SaveTrackId := by
  unfold updateAccumulators
  simp only []
  split_ifs <;> rfl

theorem storedHit_entry (env : Env) (s : State) (aStep : G4Step) (petal : Int)
    (hit : EICG4dRICHHit) :
    (storedHit env s aStep petal hit).position0 = hit.position0 ∧
    (storedHit env s aStep petal hit).t0 = hit.t0 ∧
    (storedHit env s aStep petal hit).trkid = hit.trkid ∧
    (storedHit env s aStep petal hit).edep = s.m_EdepSum ∧
    (storedHit env s aStep petal hit).eion = s.m_EionSum := by
  simp [storedHit, stampHit]

theorem trackTruthInfo_noLineage (s : State) (t : G4Track) (hl : t.userInformation = none) :
    trackTruthInfo s t = s := by
  simp [trackTruthInfo, hl]

theorem openHit_hit (env : Env) (s : State) (p : G4StepPoint) (t : G4Track) :
    ∃ h, (openHit env s p t).m_Hit = some h ∧ h.trkid = t.trackID := by
  unfold openHit
  split
  · simp [InitHit]
  · rename_i h0 hm
    split_ifs <;> simp [InitHit, hm]

/-- What the creation phase does to the open hit when the track carries no
attached information: it leaves the hit and the saved track ID alone, or it
leaves a record stamped with the step's track ID and saves that track ID. -/
theorem hitCreation_hit_cases (env : Env) (s : State) (aStep : G4Step)
    (hl : noLineage aStep) :
    ((hitCreation env s aStep).m_Hit = s.m_Hit ∧
        (hitCreation env s aStep).m_SaveTrackId = s.m_SaveTrackId) ∨
      (∃ h, (hitCreation env s aStep).m_Hit = some h ∧ h.trkid = aStep.track.trackID ∧
        (hitCreation env s aStep).m_SaveTrackId = aStep.track.trackID) := by
  simp only [noLineage] at hl
  unfold hitCreation
  simp only []
  split_ifs
  all_goals first
    | exact Or.inl ⟨rfl, rfl⟩
    | (right; simp [InitHit])
    | (right
       rw [trackTruthInfo_noLineage _ _ hl]
       obtain ⟨h, h1, h2⟩ := openHit_hit env s aStep.preStepPoint aStep.track
       exact ⟨h, h1, h2, openHit_saveTrackId env s aStep.preStepPoint aStep.track⟩)

/-- The creation phase keeps the bookkeeping invariant when the track carries no
attached information: every initialisation writes the same track ID to the
record and to `m_SaveTrackId`. -/
theorem hitTrackInv_afterCreation (env : Env) (s : State) (aStep : G4Step)
    (hl : noLineage aStep) (hi : hitTrackInv s) : hitTrackInv (afterCreation env s aStep) := by
  unfold afterCreation
  rcases hitCreation_hit_cases env { s with hitType := stepClass aStep } aStep hl with
    ⟨h1, h2⟩ | ⟨h, h1, h2, h3⟩
  · intro h hh hfin
    rw [h1] at hh
    rw [h2]
    exact hi h hh hfin
  · intro h' hh _
    rw [h1] at hh
    cases hh
    rw [h3, h2]

/-- A call that returns keeps both invariants, provided `Reset` leaves a
non-finite entry coordinate and the track carries no attached information. -/
theorem step_preserves_inv (env : Env) (hR : ∀ h, (env.Reset h).get_x0.isfinite = false)
    (s : State) (aStep : G4Step) (u : Bool) (hl : noLineage aStep)
    (hi : hitTrackInv s) (hs : storageInv s) (b : Bool) (s' : State)
    (hret : UserSteppingAction env s aStep u = Outcome.returned b s') :
    hitTrackInv s' ∧ storageInv s' := by
  by_cases hw : leavesWorld aStep
  · rw [UserSteppingAction_world env s aStep u hw] at hret
    cases hret
    refine ⟨?_, hs⟩
    intro h hh hfin
    cases hm : s.m_Hit with
    | none => simp [hm] at hh
    | some h0 =>
      simp [hm] at hh
      rw [← hh, hR h0] at hfin
      exact absurd hfin (by simp)
  by_cases ho : outsideFilter env aStep
  · rw [UserSteppingAction_outside env s aStep u hw ho] at hret
    cases hret
    exact ⟨hi, hs⟩
  by_cases hc : checksPass (afterCreation env s aStep) aStep
  swap
  · rw [UserSteppingAction_fatal env s aStep u hw ho hc] at hret
    cases hret
  obtain ⟨⟨hit, hh, hfin⟩, htrk⟩ := hc
  rw [UserSteppingAction_ok env s aStep u hw ho hit hh hfin htrk] at hret
  cases hret
  have hcp := hitTrackInv_afterCreation env s aStep hl hi
  by_cases ht : finalizeTrigger aStep = true
  swap
  · rw [saveHit_noTrigger env _ aStep _ hit (by simpa using ht)]
    refine ⟨?_, ?_⟩
    · intro h hm hf
      simp only [afterAccumulation, updateAccumulators_hit,
        updateAccumulators_saveTrackId] at hm ⊢
      exact hcp h hm hf
    · intro p hp
      rw [afterAccumulation_storage] at hp
      exact hs p hp
  by_cases hk : stepClass aStep = hIgnore
  · rw [saveHit_ignore env _ aStep _ hit ht (by rw [afterAccumulation_hitType]; exact hk)]
    refine ⟨?_, ?_⟩
    · intro h hm hf
      simp only [Option.some.injEq] at hm
      rw [← hm, hR hit] at hf
      exact absurd hf (by simp)
    · intro p hp
      simp only [afterAccumulation_storage] at hp
      exact hs p hp
  · have hk2 : (afterAccumulation env s aStep).hitType ≠ hIgnore := by
      rw [afterAccumulation_hitType]; exact hk
    obtain ⟨h1, h2, _, _, _⟩ := saveHit_keep env _ aStep
      (petalOf env (stepClass aStep) aStep) hit ht hk2
    refine ⟨?_, ?_⟩
    · intro h hm _
      rw [h2] at hm
      cases hm
    · intro p hp
      rw [h1, afterAccumulation_storage] at hp
      rcases List.mem_append.mp hp with hp | hp
      · exact hs p hp
      · simp only [List.mem_singleton] at hp
        rw [hp]
        simp only [EICG4dRICHHit.get_x0, (storedHit_entry env _ aStep _ hit).1]
        exact hfin

/-- Both invariants hold at the end of every run that starts in a state where
they hold. -/
theorem run_preserves_inv (env : Env) (hR : ∀ h, (env.Reset h).get_x0.isfinite = false)
    (steps : List (G4Step × Bool)) (hl : ∀ p ∈ steps, noLineage p.1) :
    ∀ s s' : State, hitTrackInv s → storageInv s → runSteps env s steps = some s' →
      hitTrackInv s' ∧ storageInv s' := by
  induction steps with
  | nil =>
    intro s s' hi hs hrun
    simp only [runSteps, Option.some.injEq] at hrun
    rw [← hrun]
    exact ⟨hi, hs⟩
  | cons p rest ih =>
    intro s s' hi hs hrun
    obtain ⟨a, u⟩ := p
    simp only [runSteps] at hrun
    cases hout : UserSteppingAction env s a u with
    | fatal s1 => simp [hout] at hrun
    | returned b s1 =>
      simp only [hout] at hrun
      have hla : noLineage a := hl (a, u) (List.mem_cons_self _ _)
      obtain ⟨hi1, hs1⟩ := step_preserves_inv env hR s a u hla hi hs b s1 hout
      exact ih (fun q hq => hl q (List.mem_cons_of_mem _ hq)) s1 s' hi1 hs1 hrun

/-- The record a call hands to storage, in a state satisfying the bookkeeping
invariant: its entry coordinate is finite and its track ID is the track ID of
the step, which is the saved track ID. -/
theorem stored_hit_track (env : Env) (s : State) (aStep : G4Step) (u : Bool)
    (hl : noLineage aStep) (hi : hitTrackInv s)
    (hs : (UserSteppingAction env s aStep u).state.storage ≠ s.storage) :
    ∃ (k : Int) (h : EICG4dRICHHit),
      (UserSteppingAction env s aStep u).state.storage = s.storage ++ [(k, h)] ∧
      h.get_x0.isfinite = true ∧ h.trkid = aStep.track.trackID ∧
      h.trkid = (afterCreation env s aStep).m_SaveTrackId := by
  obtain ⟨_, _, _, _, hit, hh, hfin, htrk, hst, _⟩ := stored_hit_cases env s aStep u hs
  have hcp := hitTrackInv_afterCreation env s aStep hl hi hit hh hfin
  obtain ⟨e1, _, e3, _, _⟩ := storedHit_entry env (afterAccumulation env s aStep) aStep
    (petalOf env (stepClass aStep) aStep) hit
  refine ⟨_, _, hst, ?_, ?_, ?_⟩
  · simp only [EICG4dRICHHit.get_x0, e1]
    exact hfin
  · rw [e3, hcp, htrk]
  · rw [e3, hcp]

/-- When the pre-status is neither GeomBoundary nor Undefined and the step is
not an entrance, the creation phase touches nothing but the classification. -/
theorem afterCreation_idle (env : Env) (s : State) (aStep : G4Step)
    (hg : aStep.preStepPoint.stepStatus ≠ G4StepStatus.fGeomBoundary)
    (hu : aStep.preStepPoint.stepStatus ≠ G4StepStatus.fUndefined)
    (he : stepClass aStep ≠ hEntrance) :
    afterCreation env s aStep = { s with hitType := stepClass aStep } := by
  unfold afterCreation hitCreation
  simp only []
  split_ifs <;> first | rfl | (exfalso; simp_all)

/-- A step classified Ignore never changes the storage. -/
theorem ignore_keeps_storage (env : Env) (s : State) (aStep : G4Step) (u : Bool)
    (hi : stepClass aStep = hIgnore) :
    (UserSteppingAction env s aStep u).state.storage = s.storage := by
  by_contra hne
  exact (stored_hit_cases env s aStep u hne).2.2.2.1 hi

/-- The subtype decided at finalization depends on the classification, on
whether the track ID is 1, on the particle name, and for an entrance on whether
the tag already says post-step. -/
theorem classifySubtype_congr (c t1 t2 : Int) (a1 a2 : G4Track)
    (hc : c ≠ hIgnore → c = hEntrance ∨ c = hExit ∨ c = hPSST)
    (hid : a1.trackID = 1 ↔ a2.trackID = 1)
    (hp : a1.particleName = a2.particleName)
    (ht : c = hEntrance → (t1 = entPostStep ↔ t2 = entPostStep)) :
    c ≠ hIgnore → classifySubtype c t1 a1 = classifySubtype c t2 a2 := by
  intro hk
  rcases hc hk with h | h | h
  · have ht' := ht h
    subst h
    by_cases h1 : t1 = entPostStep
    · have h2 := ht'.mp h1
      simp [classifySubtype, h1, h2]
    · have h2 : ¬ t2 = entPostStep := fun h => h1 (ht'.mpr h)
      by_cases hi : a1.trackID = 1
      · simp [classifySubtype, h1, h2, hi, hid.mp hi]
      · have hi2 : ¬ a2.trackID = 1 := fun h => hi (hid.mpr h)
        simp [classifySubtype, h1, h2, hi, hi2]
  · subst h
    by_cases hi : a1.trackID = 1
    · simp [classifySubtype, hi, hid.mp hi]
    · have hi2 : ¬ a2.trackID = 1 := fun h => hi (hid.mpr h)
      simp [classifySubtype, hi, hi2]
  · subst h
    simp [classifySubtype, hp]

/-- Creation phase of an entrance step on the freshly constructed accumulator:
a new record is initialised, whatever the pre-step status. -/
theorem afterCreation_fresh_entrance (env : Env) (active : Int) (aStep : G4Step)
    (hcls : stepClass aStep = hEntrance) (hl : noLineage aStep) :
    afterCreation env (EICG4dRICHSteppingAction active) aStep =
      InitHit env
        { EICG4dRICHSteppingAction active with hitType := hEntrance, m_Hit := some env.newHit }
        aStep.preStepPoint aStep.track true := by
  simp only [noLineage] at hl
  unfold afterCreation hitCreation
  simp only [hcls]
  split_ifs <;>
    simp_all [EICG4dRICHSteppingAction, openHit, trackTruthInfo, G4StepStatus.toInt]

/-- Creation phase of an entrance step with pre-status PostStepDoItProc: the
tag is set when the previous post-status was GeomBoundary, the open record is
replaced by a new one, which is initialised with reset accumulators. -/
theorem afterCreation_postStep_entrance (env : Env) (s : State) (aStep : G4Step)
    (hpre : aStep.preStepPoint.stepStatus = G4StepStatus.fPostStepDoItProc)
    (hcls : stepClass aStep = hEntrance) :
    afterCreation env s aStep =
      InitHit env
        { s with
          hitType := hEntrance
          hitSubtype :=
            if s.m_SavePostStepStatus = G4StepStatus.fGeomBoundary.toInt then entPostStep
            else s.hitSubtype
          m_Hit := some env.newHit }
        aStep.preStepPoint aStep.track true := by
  unfold afterCreation hitCreation
  simp only [hcls, hpre, if_true]
  split_ifs <;> simp_all

/-- For the three classifications that are kept, the subtype switch yields one
of the subtypes of that classification: neither its default case nor the
fallback for an unset subtype produces the result. -/
theorem classifySubtype_range (c t : Int) (a : G4Track) :
    (c = hEntrance →
      classifySubtype c t a = entPrimary ∨ classifySubtype c t a = entSecondary ∨
        classifySubtype c t a = entPostStep) ∧
    (c = hExit →
      classifySubtype c t a = exPrimary ∨ classifySubtype c t a = exSecondary) ∧
    (c = hPSST →
      classifySubtype c t a = psOptical ∨ classifySubtype c t a = psGamma ∨
        classifySubtype c t a = psOther) := by
  refine ⟨?_, ?_, ?_⟩
  · intro h
    subst h
    by_cases h1 : t = entPostStep
    · simp [classifySubtype, h1]
    · by_cases h2 : a.trackID = 1 <;> simp [classifySubtype, h1, h2]
  · intro h
    subst h
    by_cases h2 : a.trackID = 1 <;> simp [classifySubtype, h2]
  · intro h
    subst h
    by_cases h1 : a.particleName = "opticalphoton"
    · simp [classifySubtype, h1]
    · by_cases h2 : a.particleName = "gamma" <;> simp [classifySubtype, h1, h2]

/-- A processed step that passes the checks, meets the finalization trigger and
is classified Ignore is discarded: the call returns true, the open record is
reset in place and stays allocated, nothing is added to storage, and both sums
are the accumulators as updated by the step. -/
theorem discard_resets_in_place (env : Env) (s : State) (aStep : G4Step) (u : Bool)
    (hw : ¬ leavesWorld aStep) (ho : ¬ outsideFilter env aStep)
    (hc : checksPass (afterCreation env s aStep) aStep)
    (ht : aStep.postStepPoint.stepStatus = G4StepStatus.fGeomBoundary ∨
      aStep.postStepPoint.stepStatus = G4StepStatus.fAtRestDoItProc ∨
      aStep.track.trackStatus = G4TrackStatus.fStopAndKill)
    (hi : stepClass aStep = hIgnore) :
    (UserSteppingAction env s aStep u).value = some true ∧
    (∃ hit : EICG4dRICHHit, (afterCreation env s aStep).m_Hit = some hit ∧
      (UserSteppingAction env s aStep u).state.m_Hit = some (env.Reset hit)) ∧
    (UserSteppingAction env s aStep u).state.storage = s.storage ∧
    (UserSteppingAction env s aStep u).state.m_EdepSum =
      (afterAccumulation env s aStep).m_EdepSum ∧
    (UserSteppingAction env s aStep u).state.m_EionSum =
      (afterAccumulation env s aStep).m_EionSum := by
  obtain ⟨⟨hit, hh, hfin⟩, htrk⟩ := hc
  have hT : finalizeTrigger aStep = true := (finalizeTrigger_iff aStep hw).mpr ht
  have hI : (afterAccumulation env s aStep).hitType = hIgnore := by
    rw [afterAccumulation_hitType]; exact hi
  rw [UserSteppingAction_ok env s aStep u hw ho hit hh hfin htrk,
    saveHit_ignore env _ aStep _ hit hT hI]
  exact ⟨rfl, ⟨hit, hh, rfl⟩, afterAccumulation_storage env s aStep, rfl, rfl⟩

/-! ## Claims -/

/-- C1: a call changes the hit storage exactly when it is not skipped, does not
end fatally, the finalization trigger holds (post-status GeomBoundary or
AtRestDoItProc, or track status StopAndKill) and the classification is not
Ignore; then exactly one record is appended, keyed by the petal of the
post-volume for an Entrance step and of the pre-volume otherwise, it carries
the current energy sums, and no hit is in progress afterwards. -/
theorem storage_changes_iff_kept (env : Env) (s : State) (aStep : G4Step) (u : Bool) :
    ((UserSteppingAction env s aStep u).state.storage ≠ s.storage ↔
      (¬ leavesWorld aStep ∧ ¬ outsideFilter env aStep) ∧
        (UserSteppingAction env s aStep u).isFatal = false ∧
        (aStep.postStepPoint.stepStatus = G4StepStatus.fGeomBoundary ∨
          aStep.postStepPoint.stepStatus = G4StepStatus.fAtRestDoItProc ∨
          aStep.track.trackStatus = G4TrackStatus.fStopAndKill) ∧
        stepClass aStep ≠ hIgnore) ∧
    ((UserSteppingAction env s aStep u).state.storage ≠ s.storage →
      ∃ h : EICG4dRICHHit,
        (UserSteppingAction env s aStep u).state.storage =
          s.storage ++
            [(if stepClass aStep = hEntrance then env.GetPetal aStep.postStepPoint.volume
              else env.GetPetal aStep.preStepPoint.volume, h)] ∧
        h.edep = (UserSteppingAction env s aStep u).state.m_EdepSum ∧
        h.eion = (UserSteppingAction env s aStep u).state.m_EionSum ∧
        (UserSteppingAction env s aStep u).state.m_Hit = none) := by
  by_cases hw : leavesWorld aStep
  · rw [UserSteppingAction_world env s aStep u hw]
    simp [Outcome.state, hw]
  by_cases ho : outsideFilter env aStep
  · rw [UserSteppingAction_outside env s aStep u hw ho]
    simp [Outcome.state, ho]
  by_cases hc : checksPass (afterCreation env s aStep) aStep
  swap
  · rw [UserSteppingAction_fatal env s aStep u hw ho hc]
    simp [Outcome.state, Outcome.isFatal, afterCreation_storage]
  obtain ⟨⟨hit, hh, hfin⟩, htrk⟩ := hc
  rw [UserSteppingAction_ok env s aStep u hw ho hit hh hfin htrk]
  simp only [Outcome.state, Outcome.isFatal]
  by_cases ht : finalizeTrigger aStep = true
  swap
  · have ht2 : finalizeTrigger aStep = false := by simpa using ht
    rw [saveHit_noTrigger env _ aStep _ hit ht2]
    rw [finalizeTrigger_iff aStep hw] at ht
    simp [afterAccumulation_storage, ht]
  by_cases hk : stepClass aStep = hIgnore
  · rw [saveHit_ignore env _ aStep _ hit ht (by rw [afterAccumulation_hitType]; exact hk)]
    simp [afterAccumulation_storage, hk]
  · have hk2 : (afterAccumulation env s aStep).hitType ≠ hIgnore := by
      rw [afterAccumulation_hitType]; exact hk
    obtain ⟨h1, h2, h3, h4, _⟩ := saveHit_keep env _ aStep
      (petalOf env (stepClass aStep) aStep) hit ht hk2
    rw [h1, h2, h3, h4, afterAccumulation_storage]
    rw [finalizeTrigger_iff aStep hw] at ht
    refine ⟨?_, ?_⟩
    · simp [hw, ho, ht, hk]
    · intro _
      refine ⟨storedHit env (afterAccumulation env s aStep) aStep
        (petalOf env (stepClass aStep) aStep) hit, ?_, ?_, ?_, rfl⟩
      · simp [petalOf]
      · simp [storedHit, stampHit]
      · simp [storedHit, stampHit]

/-- Witness for C1: the photon step of scenario C, taken from the freshly
constructed accumulator, changes the storage. -/
theorem storage_changes_iff_kept_witness :
    (UserSteppingAction sampleEnv (EICG4dRICHSteppingAction 1) photonStep false).state.storage ≠
        (EICG4dRICHSteppingAction 1).storage ∧
      ∃ h : EICG4dRICHHit,
        (UserSteppingAction sampleEnv (EICG4dRICHSteppingAction 1) photonStep false).state.storage =
          (EICG4dRICHSteppingAction 1).storage ++
            [(if stepClass photonStep = hEntrance then
                sampleEnv.GetPetal photonStep.postStepPoint.volume
              else sampleEnv.GetPetal photonStep.preStepPoint.volume, h)] ∧
        h.edep =
          (UserSteppingAction sampleEnv (EICG4dRICHSteppingAction 1) photonStep false).state.m_EdepSum ∧
        h.eion =
          (UserSteppingAction sampleEnv (EICG4dRICHSteppingAction 1) photonStep false).state.m_EionSum ∧
        (UserSteppingAction sampleEnv (EICG4dRICHSteppingAction 1) photonStep false).state.m_Hit =
          none :=
  ⟨by decide,
    (storage_changes_iff_kept sampleEnv (EICG4dRICHSteppingAction 1) photonStep false).2
      (by decide)⟩

/-- C2: a step that is not skipped ends in the fatal exit exactly when, after
the hit-creation phase, no hit is open, or the open hit's entry x-coordinate is
not finite, or the step's track ID differs from the saved track ID; the fatal
path adds nothing to the hit storage. -/
theorem fatal_iff_checks_fail (env : Env) (s : State) (aStep : G4Step) (u : Bool)
    (hw : ¬ leavesWorld aStep) (ho : ¬ outsideFilter env aStep) :
    ((UserSteppingAction env s aStep u).isFatal = true ↔
      ((afterCreation env s aStep).m_Hit = none ∨
        (∃ h, (afterCreation env s aStep).m_Hit = some h ∧ h.get_x0.isfinite = false) ∨
        aStep.track.trackID ≠ (afterCreation env s aStep).m_SaveTrackId)) ∧
    ((UserSteppingAction env s aStep u).isFatal = true →
      (UserSteppingAction env s aStep u).state.storage = s.storage) := by
  by_cases hc : checksPass (afterCreation env s aStep) aStep
  · obtain ⟨⟨hit, hh, hfin⟩, htrk⟩ := hc
    rw [UserSteppingAction_ok env s aStep u hw ho hit hh hfin htrk]
    simp [Outcome.isFatal, hh, hfin, htrk]
  · rw [UserSteppingAction_fatal env s aStep u hw ho hc]
    simp only [Outcome.isFatal, Outcome.state, afterCreation_storage, true_iff, and_true,
      implies_true]
    by_contra hn
    apply hc
    simp only [not_or, not_exists, not_and, ne_eq, not_not] at hn
    obtain ⟨h1, h2, h3⟩ := hn
    cases hm : (afterCreation env s aStep).m_Hit with
    | none => exact absurd hm h1
    | some hit =>
      refine ⟨⟨hit, hm, ?_⟩, h3⟩
      have := h2 hit hm
      simpa using this

/-- Witness for C2: a step inside a petal, taken from the freshly constructed
accumulator with no hit open, is processed and ends fatally. -/
theorem fatal_iff_checks_fail_witness :
    (¬ leavesWorld innerStep ∧ ¬ outsideFilter sampleEnv innerStep) ∧
    (UserSteppingAction sampleEnv (EICG4dRICHSteppingAction 1) innerStep false).isFatal = true ∧
    (((UserSteppingAction sampleEnv (EICG4dRICHSteppingAction 1) innerStep false).isFatal = true ↔
      ((afterCreation sampleEnv (EICG4dRICHSteppingAction 1) innerStep).m_Hit = none ∨
        (∃ h, (afterCreation sampleEnv (EICG4dRICHSteppingAction 1) innerStep).m_Hit = some h ∧
          h.get_x0.isfinite = false) ∨
        innerStep.track.trackID ≠
          (afterCreation sampleEnv (EICG4dRICHSteppingAction 1) innerStep).m_SaveTrackId)) ∧
    ((UserSteppingAction sampleEnv (EICG4dRICHSteppingAction 1) innerStep false).isFatal = true →
      (UserSteppingAction sampleEnv (EICG4dRICHSteppingAction 1) innerStep false).state.storage =
        (EICG4dRICHSteppingAction 1).storage)) :=
  ⟨⟨by decide, by decide⟩, by decide,
    fatal_iff_checks_fail sampleEnv (EICG4dRICHSteppingAction 1) innerStep false
      (by decide) (by decide)⟩

/-- C3: the classification depends on the two volume names only, in the
priority order photosensor, entrance, exit, ignore; every processed step
recomputes it, so the value left by an earlier step has no influence on the
call. -/
theorem classification_is_fresh (env : Env) (s : State) (aStep : G4Step) (u : Bool)
    (hw : ¬ leavesWorld aStep) :
    (UserSteppingAction env s aStep u).state.hitType =
        classifyHitType aStep.preStepPoint.volume.name aStep.postStepPoint.volume.name ∧
    (∀ t : Int, UserSteppingAction env { s with hitType := t } aStep u =
        UserSteppingAction env s aStep u) ∧
    (∀ pre post : String,
      (classifyHitType pre post = hPSST ↔
        (G4String.contains pre "dRICHpetal" = true ∧
          G4String.contains post "dRICHpsst" = true)) ∧
      (classifyHitType pre post = hEntrance ↔
        (¬ (G4String.contains pre "dRICHpetal" = true ∧
            G4String.contains post "dRICHpsst" = true) ∧
          (G4String.contains pre "World" = true ∧
            G4String.contains post "dRICHvessel" = true))) ∧
      (classifyHitType pre post = hExit ↔
        (¬ (G4String.contains pre "dRICHpetal" = true ∧
            G4String.contains post "dRICHpsst" = true) ∧
          ¬ (G4String.contains pre "World" = true ∧
            G4String.contains post "dRICHvessel" = true) ∧
          (G4String.contains pre "dRICHvessel" = true ∧
            G4String.contains post "World" = true))) ∧
      (classifyHitType pre post = hIgnore ↔
        (¬ (G4String.contains pre "dRICHpetal" = true ∧
            G4String.contains post "dRICHpsst" = true) ∧
          ¬ (G4String.contains pre "World" = true ∧
            G4String.contains post "dRICHvessel" = true) ∧
          ¬ (G4String.contains pre "dRICHvessel" = true ∧
            G4String.contains post "World" = true)))) := by
  refine ⟨?_, ?_, ?_⟩
  · by_cases ho : outsideFilter env aStep
    · rw [UserSteppingAction_outside env s aStep u hw ho]
      rfl
    by_cases hc : checksPass (afterCreation env s aStep) aStep
    · obtain ⟨⟨hit, hh, hfin⟩, htrk⟩ := hc
      rw [UserSteppingAction_ok env s aStep u hw ho hit hh hfin htrk]
      simp only [Outcome.state]
      by_cases ht : finalizeTrigger aStep = true
      · by_cases hk : (afterAccumulation env s aStep).hitType = hIgnore
        · rw [saveHit_ignore env _ aStep _ hit ht hk]
          exact afterAccumulation_hitType env s aStep
        · simp only [saveHit, ht, if_true, if_pos hk]
          split <;> exact afterAccumulation_hitType env s aStep
      · rw [saveHit_noTrigger env _ aStep _ hit (by simpa using ht)]
        exact afterAccumulation_hitType env s aStep
    · rw [UserSteppingAction_fatal env s aStep u hw ho hc]
      exact afterCreation_hitType env s aStep
  · intro t
    simp only [leavesWorld] at hw
    simp only [UserSteppingAction, if_neg hw]
  · intro pre post
    unfold classifyHitType
    simp only [Bool.and_eq_true]
    split_ifs <;> simp_all

/-- Witness for C3: the photon step is processed, whatever classification an
earlier step left. -/
theorem classification_is_fresh_witness :
    ¬ leavesWorld photonStep ∧
    (UserSteppingAction sampleEnv (EICG4dRICHSteppingAction 1) photonStep false).state.hitType =
      hPSST ∧
    UserSteppingAction sampleEnv { EICG4dRICHSteppingAction 1 with hitType := hExit }
        photonStep false =
      UserSteppingAction sampleEnv (EICG4dRICHSteppingAction 1) photonStep false :=
  ⟨by decide,
    (classification_is_fresh sampleEnv (EICG4dRICHSteppingAction 1) photonStep false
      (by decide)).1.trans (by decide),
    (classification_is_fresh sampleEnv (EICG4dRICHSteppingAction 1) photonStep false
      (by decide)).2.1 hExit⟩

/-- C4: a step that does not leave the world, whose pre-volume is outside the
detector and whose classification is neither Entrance nor Exit, returns false
and changes nothing: the in-progress hit, both energy sums, the saved track ID,
the saved statuses and volumes, the subtype tag and the hit storage keep their
values. -/
theorem outside_step_no_effect (env : Env) (s : State) (aStep : G4Step) (u : Bool)
    (hw : aStep.postStepPoint.stepStatus ≠ G4StepStatus.fWorldBoundary)
    (hout : env.IsInDetector aStep.preStepPoint.volume = 0)
    (hne : stepClass aStep ≠ hEntrance) (hnx : stepClass aStep ≠ hExit) :
    (UserSteppingAction env s aStep u).value = some false ∧
    (UserSteppingAction env s aStep u).state.m_Hit = s.m_Hit ∧
    (UserSteppingAction env s aStep u).state.m_EdepSum = s.m_EdepSum ∧
    (UserSteppingAction env s aStep u).state.m_EionSum = s.m_EionSum ∧
    (UserSteppingAction env s aStep u).state.m_SaveTrackId = s.m_SaveTrackId ∧
    (UserSteppingAction env s aStep u).state.m_SavePreStepStatus = s.m_SavePreStepStatus ∧
    (UserSteppingAction env s aStep u).state.m_SavePostStepStatus = s.m_SavePostStepStatus ∧
    (UserSteppingAction env s aStep u).state.m_SaveVolPre = s.m_SaveVolPre ∧
    (UserSteppingAction env s aStep u).state.m_SaveVolPost = s.m_SaveVolPost ∧
    (UserSteppingAction env s aStep u).state.hitSubtype = s.hitSubtype ∧
    (UserSteppingAction env s aStep u).state.storage = s.storage ∧
    (UserSteppingAction env s aStep u).state.truth = s.truth := by
  rw [UserSteppingAction_outside env s aStep u hw ⟨hout, hne, hnx⟩]
  simp [Outcome.value, Outcome.state]

/-- Witness for C4: scenario D, a step from the world into a magnet. -/
theorem outside_step_no_effect_witness :
    (UserSteppingAction sampleEnv (EICG4dRICHSteppingAction 1) outsideStep false).value =
      some false ∧
    (UserSteppingAction sampleEnv (EICG4dRICHSteppingAction 1) outsideStep false).state.m_Hit =
      (EICG4dRICHSteppingAction 1).m_Hit ∧
    (UserSteppingAction sampleEnv (EICG4dRICHSteppingAction 1) outsideStep false).state.storage =
      (EICG4dRICHSteppingAction 1).storage :=
  have h := outside_step_no_effect sampleEnv (EICG4dRICHSteppingAction 1) outsideStep false
    (by decide) (by decide) (by decide) (by decide)
  ⟨h.1, h.2.1, h.2.2.2.2.2.2.2.2.2.2.1⟩

/-- C5: a call that does not end fatally returns false exactly when the step
leaves the world or is filtered out as outside the detector (membership Outside
and classification neither Entrance nor Exit); in every other case it returns
true; the argument `was_used` has no influence on the outcome. -/
theorem return_value (env : Env) (s : State) (aStep : G4Step) (u : Bool)
    (hf : (UserSteppingAction env s aStep u).isFatal = false) :
    ((UserSteppingAction env s aStep u).value = some false ↔
      (aStep.postStepPoint.stepStatus = G4StepStatus.fWorldBoundary ∨
        (env.IsInDetector aStep.preStepPoint.volume = 0 ∧
          stepClass aStep ≠ hEntrance ∧ stepClass aStep ≠ hExit))) ∧
    (¬ (aStep.postStepPoint.stepStatus = G4StepStatus.fWorldBoundary ∨
        (env.IsInDetector aStep.preStepPoint.volume = 0 ∧
          stepClass aStep ≠ hEntrance ∧ stepClass aStep ≠ hExit)) →
      (UserSteppingAction env s aStep u).value = some true) ∧
    (∀ v : Bool, UserSteppingAction env s aStep v = UserSteppingAction env s aStep u) := by
  refine ⟨?_, ?_, fun v => rfl⟩
  · by_cases hw : leavesWorld aStep
    · rw [UserSteppingAction_world env s aStep u hw]
      simp only [leavesWorld] at hw
      simp [Outcome.value, hw]
    by_cases ho : outsideFilter env aStep
    · rw [UserSteppingAction_outside env s aStep u hw ho]
      simp only [outsideFilter] at ho
      simp [Outcome.value, ho]
    have hc := checksPass_of_not_fatal env s aStep u hw ho hf
    obtain ⟨⟨hit, hh, hfin⟩, htrk⟩ := hc
    rw [UserSteppingAction_ok env s aStep u hw ho hit hh hfin htrk]
    simp only [leavesWorld] at hw
    simp only [outsideFilter] at ho
    simp [Outcome.value, hw, ho]
  · intro hn
    have hw : ¬ leavesWorld aStep := fun h => hn (Or.inl h)
    have ho : ¬ outsideFilter env aStep := fun h => hn (Or.inr h)
    have hc := checksPass_of_not_fatal env s aStep u hw ho hf
    obtain ⟨⟨hit, hh, hfin⟩, htrk⟩ := hc
    rw [UserSteppingAction_ok env s aStep u hw ho hit hh hfin htrk]
    rfl

/-- Witness for C5: the photon step from the fresh accumulator is not fatal and
returns true. -/
theorem return_value_witness :
    (UserSteppingAction sampleEnv (EICG4dRICHSteppingAction 1) photonStep false).isFatal = false ∧
    (UserSteppingAction sampleEnv (EICG4dRICHSteppingAction 1) photonStep false).value =
      some true :=
  ⟨by decide,
    (return_value sampleEnv (EICG4dRICHSteppingAction 1) photonStep false (by decide)).2.1
      (by decide)⟩

/-- C6: whenever a call hands a hit to storage, the hit-type name stamped on it
is the name of the step's classification ("entrance", "exit" or "psst") and the
subtype follows the finalizer rules: Entrance keeps post-step when the tag
already says so, otherwise primary for track 1 and secondary for other tracks;
Exit is primary for track 1, secondary otherwise; Photosensor is optical for an
optical photon, gamma for a gamma, other otherwise. -/
theorem stored_subtype_rules (env : Env) (s : State) (aStep : G4Step) (u : Bool)
    (hs : (UserSteppingAction env s aStep u).state.storage ≠ s.storage) :
    ∃ (k : Int) (h : EICG4dRICHHit),
      (UserSteppingAction env s aStep u).state.storage = s.storage ++ [(k, h)] ∧
      h.hit_type_name = hitTypeStr (stepClass aStep) ∧
      h.hit_subtype_name = hitSubtypeStr (UserSteppingAction env s aStep u).state.hitSubtype ∧
      (stepClass aStep = hEntrance →
        h.hit_type_name = "entrance" ∧
        ((afterCreation env s aStep).hitSubtype = entPostStep →
          (UserSteppingAction env s aStep u).state.hitSubtype = entPostStep ∧
            h.hit_subtype_name = "postStep") ∧
        ((afterCreation env s aStep).hitSubtype ≠ entPostStep → aStep.track.trackID = 1 →
          (UserSteppingAction env s aStep u).state.hitSubtype = entPrimary ∧
            h.hit_subtype_name = "primary") ∧
        ((afterCreation env s aStep).hitSubtype ≠ entPostStep → aStep.track.trackID ≠ 1 →
          (UserSteppingAction env s aStep u).state.hitSubtype = entSecondary ∧
            h.hit_subtype_name = "secondary")) ∧
      (stepClass aStep = hExit →
        h.hit_type_name = "exit" ∧
        (aStep.track.trackID = 1 →
          (UserSteppingAction env s aStep u).state.hitSubtype = exPrimary ∧
            h.hit_subtype_name = "primary") ∧
        (aStep.track.trackID ≠ 1 →
          (UserSteppingAction env s aStep u).state.hitSubtype = exSecondary ∧
            h.hit_subtype_name = "secondary")) ∧
      (stepClass aStep = hPSST →
        h.hit_type_name = "psst" ∧
        (aStep.track.particleName = "opticalphoton" →
          (UserSteppingAction env s aStep u).state.hitSubtype = psOptical ∧
            h.hit_subtype_name = "optical") ∧
        (aStep.track.particleName ≠ "opticalphoton" → aStep.track.particleName = "gamma" →
          (UserSteppingAction env s aStep u).state.hitSubtype = psGamma ∧
            h.hit_subtype_name = "gamma") ∧
        (aStep.track.particleName ≠ "opticalphoton" → aStep.track.particleName ≠ "gamma" →
          (UserSteppingAction env s aStep u).state.hitSubtype = psOther ∧
            h.hit_subtype_name = "other")) := by
  obtain ⟨_, _, _, _, hit, _, _, _, hst, hsub⟩ := stored_hit_cases env s aStep u hs
  obtain ⟨hn1, hn2, _⟩ := storedHit_names env (afterAccumulation env s aStep) aStep
    (petalOf env (stepClass aStep) aStep) hit
  rw [afterAccumulation_hitType] at hn1
  rw [afterAccumulation_hitType, afterAccumulation_hitSubtype] at hn2
  refine ⟨_, _, hst, hn1, ?_, ?_, ?_, ?_⟩
  · rw [hn2, hsub]
  · intro hc
    rw [hn1, hn2, hsub, hc]
    refine ⟨by decide, ?_, ?_, ?_⟩
    · intro h1
      simp [classifySubtype, h1, hitSubtypeStr]
    · intro h1 h2
      simp [classifySubtype, h1, h2, hitSubtypeStr]
    · intro h1 h2
      simp [classifySubtype, h1, h2, hitSubtypeStr]
  · intro hc
    rw [hn1, hn2, hsub, hc]
    refine ⟨by decide, ?_, ?_⟩
    · intro h2
      simp [classifySubtype, h2, hitSubtypeStr]
    · intro h2
      simp [classifySubtype, h2, hitSubtypeStr]
  · intro hc
    rw [hn1, hn2, hsub, hc]
    refine ⟨by decide, ?_, ?_, ?_⟩
    · intro h1
      simp [classifySubtype, h1, hitSubtypeStr]
    · intro h1 h2
      simp [classifySubtype, h1, h2, hitSubtypeStr]
    · intro h1 h2
      simp [classifySubtype, h1, h2, hitSubtypeStr]

/-- Witness for C6, scenario C: an optical photon on a petal-to-photosensor step
is stored with type psst and subtype optical. -/
theorem stored_subtype_rules_witness :
    (UserSteppingAction sampleEnv (EICG4dRICHSteppingAction 1) photonStep false).state.storage ≠
        (EICG4dRICHSteppingAction 1).storage ∧
    ∃ (k : Int) (h : EICG4dRICHHit),
      (UserSteppingAction sampleEnv (EICG4dRICHSteppingAction 1) photonStep false).state.storage =
        (EICG4dRICHSteppingAction 1).storage ++ [(k, h)] ∧
      h.hit_type_name = "psst" ∧ h.hit_subtype_name = "optical" ∧
      (UserSteppingAction sampleEnv (EICG4dRICHSteppingAction 1) photonStep false).state.hitSubtype =
        psOptical :=
  ⟨by decide,
    match stored_subtype_rules sampleEnv (EICG4dRICHSteppingAction 1) photonStep false
      (by decide) with
    | ⟨k, h, hst, _, _, _, _, hps⟩ =>
      ⟨k, h, hst, (hps (by decide)).1, ((hps (by decide)).2.1 (by decide)).2,
        ((hps (by decide)).2.1 (by decide)).1⟩⟩

/-- C7: whenever a call hands a hit to storage, the process name stamped on it
is "postStep" for an Entrance hit of subtype post-step, "primary" for an
Entrance hit of subtype primary, the creator-process name (or "primary" when the
track has none) for an Entrance hit of subtype secondary, "exitProcess" for
every Exit hit, and for every other hit type the creator-process name, or
"unknown" when the track has none. -/
theorem stored_process_rules (env : Env) (s : State) (aStep : G4Step) (u : Bool)
    (hs : (UserSteppingAction env s aStep u).state.storage ≠ s.storage) :
    ∃ (k : Int) (h : EICG4dRICHHit),
      (UserSteppingAction env s aStep u).state.storage = s.storage ++ [(k, h)] ∧
      (stepClass aStep = hEntrance →
        ((UserSteppingAction env s aStep u).state.hitSubtype = entPostStep →
          h.process = "postStep") ∧
        ((UserSteppingAction env s aStep u).state.hitSubtype = entPrimary →
          h.process = "primary") ∧
        ((UserSteppingAction env s aStep u).state.hitSubtype = entSecondary →
          h.process = aStep.track.creatorProcess.getD "primary")) ∧
      (stepClass aStep = hExit → h.process = "exitProcess") ∧
      (stepClass aStep ≠ hEntrance → stepClass aStep ≠ hExit →
        h.process = aStep.track.creatorProcess.getD "unknown") := by
  obtain ⟨_, _, _, _, hit, _, _, _, hst, hsub⟩ := stored_hit_cases env s aStep u hs
  obtain ⟨_, _, hn3⟩ := storedHit_names env (afterAccumulation env s aStep) aStep
    (petalOf env (stepClass aStep) aStep) hit
  rw [afterAccumulation_hitType, afterAccumulation_hitSubtype, ← hsub] at hn3
  refine ⟨_, _, hst, ?_, ?_, ?_⟩
  · intro hc
    rw [hn3, hc]
    refine ⟨?_, ?_, ?_⟩
    · intro h1
      simp [processName, h1]
    · intro h1
      simp [processName, h1]
    · intro h1
      cases hcp : aStep.track.creatorProcess <;> simp [processName, h1, hcp]
  · intro hc
    rw [hn3, hc]
    simp [processName]
  · intro h1 h2
    rw [hn3]
    cases hcp : aStep.track.creatorProcess <;> simp [processName, h1, h2, hcp]

/-- Witness for C7, scenario B: a secondary track on a vessel-to-world step is
stored with type exit, subtype secondary and process "exitProcess". -/
theorem stored_process_rules_witness :
    (UserSteppingAction sampleEnv (EICG4dRICHSteppingAction 1) exitStep false).state.storage ≠
        (EICG4dRICHSteppingAction 1).storage ∧
    (UserSteppingAction sampleEnv (EICG4dRICHSteppingAction 1) exitStep false).state.hitSubtype =
        exSecondary ∧
    ∃ (k : Int) (h : EICG4dRICHHit),
      (UserSteppingAction sampleEnv (EICG4dRICHSteppingAction 1) exitStep false).state.storage =
        (EICG4dRICHSteppingAction 1).storage ++ [(k, h)] ∧
      h.process = "exitProcess" :=
  ⟨by decide, by decide,
    match stored_process_rules sampleEnv (EICG4dRICHSteppingAction 1) exitStep false
      (by decide) with
    | ⟨k, h, hst, _, hex, _⟩ => ⟨k, h, hst, hex (by decide)⟩⟩

/-- Counterexample for C8: an Entrance step that deposits 1000 MeV is processed
and passes the checks, yet the total-deposit sum after the step is the sum left
by the creation phase, not that sum plus the deposit (neither in GeV nor as
given). -/
theorem entrance_deposit_not_added :
    ¬ leavesWorld entranceStep ∧ ¬ outsideFilter sampleEnv entranceStep ∧
    (UserSteppingAction sampleEnv (EICG4dRICHSteppingAction 1) entranceStep false).isFatal =
      false ∧
    stepClass entranceStep = hEntrance ∧
    (UserSteppingAction sampleEnv (EICG4dRICHSteppingAction 1) entranceStep false).state.m_EdepSum ≠
      (afterCreation sampleEnv (EICG4dRICHSteppingAction 1) entranceStep).m_EdepSum +
        entranceStep.totalEnergyDeposit / sampleEnv.GeV ∧
    (UserSteppingAction sampleEnv (EICG4dRICHSteppingAction 1) entranceStep false).state.m_EdepSum ≠
      (afterCreation sampleEnv (EICG4dRICHSteppingAction 1) entranceStep).m_EdepSum +
        entranceStep.totalEnergyDeposit := by
  have hw : ¬ leavesWorld entranceStep := by decide
  have ho : ¬ outsideFilter sampleEnv entranceStep := by decide
  have hf : (UserSteppingAction sampleEnv (EICG4dRICHSteppingAction 1) entranceStep
      false).isFatal = false := by decide
  have hcls : stepClass entranceStep = hEntrance := by decide
  have hc := checksPass_of_not_fatal sampleEnv _ entranceStep false hw ho hf
  have hsum := (sums_after_step sampleEnv (EICG4dRICHSteppingAction 1) entranceStep false
    hw ho hc).1
  refine ⟨hw, ho, hf, hcls, ?_, ?_⟩
  · rw [hsum, hcls]
    simp [stepEnergy, entranceStep, sampleStep, sampleEnv]
  · rw [hsum, hcls]
    simp [stepEnergy, entranceStep, sampleStep]

/-- C8 (amended): on a processed step that passes the checks and is not
classified Entrance, the total-deposit sum grows from its value after the
creation phase by the step's total deposit (in GeV), and the ionizing sum grows
by total minus non-ionizing deposit (in GeV) when the pre-volume is active; on
an Entrance step both sums stay at their value after the creation phase; the
ionizing sum is unchanged whenever the pre-volume is passive or outside. -/
theorem energy_accumulation (env : Env) (s : State) (aStep : G4Step) (u : Bool)
    (hw : ¬ leavesWorld aStep) (ho : ¬ outsideFilter env aStep)
    (hc : checksPass (afterCreation env s aStep) aStep) :
    (stepClass aStep ≠ hEntrance →
      (UserSteppingAction env s aStep u).state.m_EdepSum =
        (afterCreation env s aStep).m_EdepSum + aStep.totalEnergyDeposit / env.GeV ∧
      (env.IsInDetector aStep.preStepPoint.volume > 0 →
        (UserSteppingAction env s aStep u).state.m_EionSum =
          (afterCreation env s aStep).m_EionSum +
            (aStep.totalEnergyDeposit - aStep.nonIonizingEnergyDeposit) / env.GeV)) ∧
    (stepClass aStep = hEntrance →
      (UserSteppingAction env s aStep u).state.m_EdepSum =
        (afterCreation env s aStep).m_EdepSum ∧
      (UserSteppingAction env s aStep u).state.m_EionSum =
        (afterCreation env s aStep).m_EionSum) ∧
    (env.IsInDetector aStep.preStepPoint.volume ≤ 0 →
      (UserSteppingAction env s aStep u).state.m_EionSum =
        (afterCreation env s aStep).m_EionSum) := by
  obtain ⟨h1, h2⟩ := sums_after_step env s aStep u hw ho hc
  rw [h1, h2]
  refine ⟨?_, ?_, ?_⟩
  · intro hne
    refine ⟨by simp [stepEnergy, hne], ?_⟩
    intro hpos
    simp [stepEnergy, hne, hpos]
  · intro he
    simp [stepEnergy, he]
  · intro hle
    rw [if_neg (not_lt.mpr hle)]

/-- Witness for C8: the photon step of scenario C, from the fresh accumulator. -/
theorem energy_accumulation_witness :
    (¬ leavesWorld photonStep ∧ ¬ outsideFilter sampleEnv photonStep ∧
      stepClass photonStep ≠ hEntrance) ∧
    (UserSteppingAction sampleEnv (EICG4dRICHSteppingAction 1) photonStep false).state.m_EdepSum =
      (afterCreation sampleEnv (EICG4dRICHSteppingAction 1) photonStep).m_EdepSum +
        photonStep.totalEnergyDeposit / sampleEnv.GeV :=
  ⟨⟨by decide, by decide, by decide⟩,
    ((energy_accumulation sampleEnv (EICG4dRICHSteppingAction 1) photonStep false
      (by decide) (by decide)
      (checksPass_of_not_fatal sampleEnv _ photonStep false (by decide) (by decide)
        (by decide))).1 (by decide)).1⟩

/-- C9: in the creation phase of a step whose pre-status is not PostStepDoItProc
and that is relevant to the hit lifecycle (pre-status GeomBoundary or Undefined,
or classification Entrance): with no hit open a new record is initialised and
both sums are zeroed; with an open hit of another track ID the record is
initialised again and both sums are zeroed; with an open hit of the step's
track ID the same record is reused, only its entry attributes are restamped,
and both sums keep their values; the saved track ID becomes the step's track
ID in every case. -/
theorem creation_phase_normal (env : Env) (s : State) (aStep : G4Step)
    (hp : aStep.preStepPoint.stepStatus ≠ G4StepStatus.fPostStepDoItProc)
    (hr : aStep.preStepPoint.stepStatus = G4StepStatus.fGeomBoundary ∨
      aStep.preStepPoint.stepStatus = G4StepStatus.fUndefined ∨
      stepClass aStep = hEntrance) :
    (s.m_Hit = none →
      (afterCreation env s aStep).m_Hit = some (entryStamped env aStep env.newHit) ∧
      (afterCreation env s aStep).m_EdepSum = 0 ∧
      (afterCreation env s aStep).m_EionSum = 0) ∧
    (∀ h : EICG4dRICHHit, s.m_Hit = some h → h.trkid ≠ aStep.track.trackID →
      (afterCreation env s aStep).m_Hit = some (entryStamped env aStep h) ∧
      (afterCreation env s aStep).m_EdepSum = 0 ∧
      (afterCreation env s aStep).m_EionSum = 0) ∧
    (∀ h : EICG4dRICHHit, s.m_Hit = some h → h.trkid = aStep.track.trackID →
      (afterCreation env s aStep).m_Hit = some (entryStamped env aStep h) ∧
      (afterCreation env s aStep).m_EdepSum = s.m_EdepSum ∧
      (afterCreation env s aStep).m_EionSum = s.m_EionSum) ∧
    (afterCreation env s aStep).m_SaveTrackId = aStep.track.trackID := by
  rw [afterCreation_normal env s aStep hp hr]
  refine ⟨?_, ?_, ?_, ?_⟩
  · intro hn
    simp only [openHit, hn, trackTruthInfo, InitHit, entryStamped, lineageTrackId]
    split <;> simp
  · intro h hh hne
    simp only [openHit, hh, trackTruthInfo, InitHit, entryStamped, lineageTrackId]
    split <;> simp [hne]
  · intro h hh heq
    simp only [openHit, hh, trackTruthInfo, InitHit, entryStamped, lineageTrackId]
    split <;> simp [heq]
  · rw [trackTruthInfo_saveTrackId, openHit_saveTrackId]

/-- Witness for C9: a boundary step of track 5 on an accumulator whose open hit
belongs to track 5 reuses the record and keeps both sums. -/
theorem creation_phase_normal_witness :
    (ignoredStep.preStepPoint.stepStatus ≠ G4StepStatus.fPostStepDoItProc ∧
      ignoredStep.preStepPoint.stepStatus = G4StepStatus.fGeomBoundary) ∧
    ((afterCreation sampleEnv openState ignoredStep).m_Hit =
        some (entryStamped sampleEnv ignoredStep
          { clearedHit with trkid := 5, position0 := origin }) ∧
      (afterCreation sampleEnv openState ignoredStep).m_EdepSum = openState.m_EdepSum ∧
      (afterCreation sampleEnv openState ignoredStep).m_EionSum = openState.m_EionSum) ∧
    (afterCreation sampleEnv openState ignoredStep).m_SaveTrackId = ignoredStep.track.trackID :=
  have h := creation_phase_normal sampleEnv openState ignoredStep (by decide)
    (Or.inl (by decide))
  ⟨⟨by decide, by decide⟩, h.2.2.1 _ rfl (by decide), h.2.2.2⟩

/-- C10, evaluated at the failing input: with the hit class of the spec, whose
`Reset` clears the record and its track ID with it, a boundary step of track 5
classified Ignore is discarded from the fresh accumulator: the record is reset
in place and stays allocated, nothing is stored, and a total sum of 4 GeV is
left behind; the next boundary step of the same track 5 re-opens the hit through
the new-hit path, and the total sum carried into it is zero, not the 4 GeV left
by the discarded step. -/
theorem reopen_after_reset_zeroes_sums :
    (UserSteppingAction sampleEnv (EICG4dRICHSteppingAction 1) ignoredStep false).isFatal =
      false ∧
    stepClass ignoredStep = hIgnore ∧ finalizeTrigger ignoredStep = true ∧
    ignoredStep.preStepPoint.stepStatus = G4StepStatus.fGeomBoundary ∧
    ignoredStep.track.trackID = 5 ∧
    (UserSteppingAction sampleEnv (EICG4dRICHSteppingAction 1) ignoredStep false).state.m_Hit =
      some clearedHit ∧
    (UserSteppingAction sampleEnv (EICG4dRICHSteppingAction 1) ignoredStep
      false).state.storage = [] ∧
    (UserSteppingAction sampleEnv (EICG4dRICHSteppingAction 1) ignoredStep false).state.m_EdepSum =
      4 ∧
    (afterCreation sampleEnv
      (UserSteppingAction sampleEnv (EICG4dRICHSteppingAction 1) ignoredStep false).state
      ignoredStep).m_EdepSum = 0 ∧
    (afterCreation sampleEnv
      (UserSteppingAction sampleEnv (EICG4dRICHSteppingAction 1) ignoredStep false).state
      ignoredStep).m_EdepSum ≠
      (UserSteppingAction sampleEnv (EICG4dRICHSteppingAction 1) ignoredStep false).state.m_EdepSum := by
  have hw : ¬ leavesWorld ignoredStep := by decide
  have ho : ¬ outsideFilter sampleEnv ignoredStep := by decide
  have hf : (UserSteppingAction sampleEnv (EICG4dRICHSteppingAction 1) ignoredStep
      false).isFatal = false := by decide
  have hc := checksPass_of_not_fatal sampleEnv _ ignoredStep false hw ho hf
  have hsum := (sums_after_step sampleEnv (EICG4dRICHSteppingAction 1) ignoredStep false
    hw ho hc).1
  have hcp : (afterCreation sampleEnv (EICG4dRICHSteppingAction 1) ignoredStep).m_EdepSum = 0 :=
    ((creation_phase_reset sampleEnv (EICG4dRICHSteppingAction 1) ignoredStep (by decide)
      (Or.inl (by decide))) (fun h hh => by simp [EICG4dRICHSteppingAction] at hh)).1
  have h4 : (UserSteppingAction sampleEnv (EICG4dRICHSteppingAction 1) ignoredStep
      false).state.m_EdepSum = 4 := by
    have hne : stepClass ignoredStep ≠ hEntrance := by decide
    rw [hsum, hcp, stepEnergy, if_pos hne]
    simp only [ignoredStep, sampleStep, sampleEnv]
    norm_num
  have hm : (UserSteppingAction sampleEnv (EICG4dRICHSteppingAction 1) ignoredStep
      false).state.m_Hit = some clearedHit := by decide
  have h0 : (afterCreation sampleEnv
      (UserSteppingAction sampleEnv (EICG4dRICHSteppingAction 1) ignoredStep false).state
      ignoredStep).m_EdepSum = 0 :=
    ((creation_phase_reset sampleEnv _ ignoredStep (by decide) (Or.inl (by decide)))
      (fun h hh => by
        rw [hm] at hh
        cases hh
        decide)).1
  refine ⟨hf, by decide, by decide, by decide, rfl, hm, by decide, h4, h0, ?_⟩
  rw [h0, h4]
  norm_num

/-- C11: along every run of calls from the freshly constructed accumulator, for
a hit class whose `Reset` leaves a non-finite entry coordinate and tracks
without attached information, every record in the storage has a finite entry
x-coordinate, and every record a further call hands to storage has a finite
entry x-coordinate and a track ID equal to the track ID of the finalizing step
and to the track ID saved when the hit was last initialised. -/
theorem stored_hits_keep_track (env : Env)
    (hR : ∀ h, (env.Reset h).get_x0.isfinite = false) (active : Int)
    (steps : List (G4Step × Bool)) (hl : ∀ p ∈ steps, noLineage p.1) (s : State)
    (hrun : runSteps env (EICG4dRICHSteppingAction active) steps = some s) :
    (∀ p ∈ s.storage, p.2.get_x0.isfinite = true) ∧
    (∀ (aStep : G4Step) (u : Bool), noLineage aStep →
      (UserSteppingAction env s aStep u).state.storage ≠ s.storage →
      ∃ (k : Int) (h : EICG4dRICHHit),
        (UserSteppingAction env s aStep u).state.storage = s.storage ++ [(k, h)] ∧
        h.get_x0.isfinite = true ∧ h.trkid = aStep.track.trackID ∧
        h.trkid = (afterCreation env s aStep).m_SaveTrackId) := by
  have h0 : hitTrackInv (EICG4dRICHSteppingAction active) := by
    intro h hh
    simp [EICG4dRICHSteppingAction] at hh
  have s0 : storageInv (EICG4dRICHSteppingAction active) := by
    intro p hp
    simp [EICG4dRICHSteppingAction] at hp
  obtain ⟨hi, hs⟩ := run_preserves_inv env hR steps hl _ s h0 s0 hrun
  exact ⟨hs, fun aStep u hla hne => stored_hit_track env s aStep u hla hi hne⟩

/-- Witness for C11: after a discarded step of track 5, the photon step of
track 4 hands a record of track 4 to storage. -/
theorem stored_hits_keep_track_witness :
    runSteps sampleEnv (EICG4dRICHSteppingAction 1) [(ignoredStep, false)] =
      some (UserSteppingAction sampleEnv (EICG4dRICHSteppingAction 1) ignoredStep false).state ∧
    ∃ (k : Int) (h : EICG4dRICHHit),
      (UserSteppingAction sampleEnv
        (UserSteppingAction sampleEnv (EICG4dRICHSteppingAction 1) ignoredStep false).state
        photonStep false).state.storage =
        (UserSteppingAction sampleEnv (EICG4dRICHSteppingAction 1) ignoredStep
          false).state.storage ++ [(k, h)] ∧
      h.get_x0.isfinite = true ∧ h.trkid = photonStep.track.trackID ∧
      h.trkid =
        (afterCreation sampleEnv
          (UserSteppingAction sampleEnv (EICG4dRICHSteppingAction 1) ignoredStep false).state
          photonStep).m_SaveTrackId :=
  ⟨rfl,
    (stored_hits_keep_track sampleEnv (fun _ => rfl) 1 [(ignoredStep, false)]
      (fun p hp => by
        simp only [List.mem_singleton] at hp
        rw [hp]
        rfl)
      _ rfl).2 photonStep false rfl (by decide)⟩

/-- Counterexample for C12: a step from a petal into a volume outside the
detector has post-volume membership Outside and classification Ignore, yet it
is processed and the call returns true. -/
theorem post_outside_ignore_returns_true :
    sampleEnv.IsInDetector leavingPetalStep.postStepPoint.volume = 0 ∧
    stepClass leavingPetalStep = hIgnore ∧
    (UserSteppingAction sampleEnv (EICG4dRICHSteppingAction 1) leavingPetalStep false).value =
      some true := by
  decide

/-- C12 (amended): a step classified Ignore never changes the hit storage, and
when the membership of its pre-volume is Outside the call returns false. -/
theorem ignore_step_outside_pre (env : Env) (s : State) (aStep : G4Step) (u : Bool)
    (hi : stepClass aStep = hIgnore) :
    (UserSteppingAction env s aStep u).state.storage = s.storage ∧
    (env.IsInDetector aStep.preStepPoint.volume = 0 →
      (UserSteppingAction env s aStep u).value = some false) := by
  refine ⟨ignore_keeps_storage env s aStep u hi, ?_⟩
  intro hout
  by_cases hw : leavesWorld aStep
  · rw [UserSteppingAction_world env s aStep u hw]
    rfl
  · have ho : outsideFilter env aStep := ⟨hout, by rw [hi]; decide, by rw [hi]; decide⟩
    rw [UserSteppingAction_outside env s aStep u hw ho]
    rfl

/-- Witness for C12: scenario D, a step from the world into a magnet. -/
theorem ignore_step_outside_pre_witness :
    stepClass outsideStep = hIgnore ∧
    sampleEnv.IsInDetector outsideStep.preStepPoint.volume = 0 ∧
    (UserSteppingAction sampleEnv (EICG4dRICHSteppingAction 1) outsideStep false).state.storage =
      (EICG4dRICHSteppingAction 1).storage ∧
    (UserSteppingAction sampleEnv (EICG4dRICHSteppingAction 1) outsideStep false).value =
      some false :=
  have h := ignore_step_outside_pre sampleEnv (EICG4dRICHSteppingAction 1) outsideStep false
    (by decide)
  ⟨by decide, by decide, h.1, h.2 (by decide)⟩

/-- Counterexample for C13: from the fresh accumulator a boundary step of track
5 inside a petal opens a hit that is not finalized; the next call is a
processed boundary step of track 2, and it does not end fatally: the creation
phase initialises the record again for track 2, and the only record that
reaches the storage belongs to track 2. -/
theorem foreign_track_overwrites_hit :
    ((UserSteppingAction sampleEnv (EICG4dRICHSteppingAction 1) openingStep false).state.m_Hit.map
        (fun h => h.trkid) = some 5 ∧
      (UserSteppingAction sampleEnv (EICG4dRICHSteppingAction 1) openingStep
        false).state.m_SaveTrackId = 5 ∧
      (UserSteppingAction sampleEnv (EICG4dRICHSteppingAction 1) openingStep
        false).state.storage.length = 0) ∧
    exitStep.track.trackID = 2 ∧
    ¬ leavesWorld exitStep ∧ ¬ outsideFilter sampleEnv exitStep ∧
    (UserSteppingAction sampleEnv
      (UserSteppingAction sampleEnv (EICG4dRICHSteppingAction 1) openingStep false).state
      exitStep false).isFatal = false ∧
    (UserSteppingAction sampleEnv
      (UserSteppingAction sampleEnv (EICG4dRICHSteppingAction 1) openingStep false).state
      exitStep false).state.storage.map (fun p => p.2.trkid) = [2] := by
  decide

/-- C13 (amended): when the track ID saved at the last initialisation is A (the
track the open hit was created under), a processed step of another track whose
creation phase does not initialise the hit again (pre-status neither
GeomBoundary nor Undefined, classification not Entrance) ends in the fatal
exit, and nothing is added to storage. -/
theorem foreign_track_fatal (env : Env) (s : State) (aStep : G4Step) (u : Bool) (A : Int)
    (hA : s.m_SaveTrackId = A)
    (hB : aStep.track.trackID ≠ A)
    (hw : ¬ leavesWorld aStep) (ho : ¬ outsideFilter env aStep)
    (hg : aStep.preStepPoint.stepStatus ≠ G4StepStatus.fGeomBoundary)
    (hu : aStep.preStepPoint.stepStatus ≠ G4StepStatus.fUndefined)
    (he : stepClass aStep ≠ hEntrance) :
    (UserSteppingAction env s aStep u).isFatal = true ∧
    (UserSteppingAction env s aStep u).state.storage = s.storage := by
  have hc : ¬ checksPass (afterCreation env s aStep) aStep := by
    rw [afterCreation_idle env s aStep hg hu he]
    intro hc
    exact hB (hc.2.trans hA)
  rw [UserSteppingAction_fatal env s aStep u hw ho hc]
  exact ⟨rfl, afterCreation_storage env s aStep⟩

/-- Witness for C13: with the hit of track 5 open, a step of track 4 inside a
petal ends fatally. -/
theorem foreign_track_fatal_witness :
    (UserSteppingAction sampleEnv openState
      { innerStep with track := sampleTrack 4 "pi+" none } false).isFatal = true ∧
    (UserSteppingAction sampleEnv openState
      { innerStep with track := sampleTrack 4 "pi+" none } false).state.storage =
      openState.storage :=
  foreign_track_fatal sampleEnv openState { innerStep with track := sampleTrack 4 "pi+" none }
    false 5 rfl (by decide) (by decide) (by decide) (by decide) (by decide) (by decide)

/-- Counterexample for C14: three entrance crossings of the primary track, all
agreeing on hit type, track ID 1, absent creator process and particle name, are
stored one after the other from the fresh accumulator; the first (pre-status
GeomBoundary) is stamped primary, the second (pre-status PostStepDoItProc after
a GeomBoundary post-status) is stamped postStep, and the third, which is the
very step of the first call, is stamped postStep as well. -/
theorem subtype_not_function_of_inputs :
    stepClass primaryEntrance = stepClass postStepEntrance ∧
    primaryEntrance.track.trackID = 1 ∧ postStepEntrance.track.trackID = 1 ∧
    primaryEntrance.track.creatorProcess = postStepEntrance.track.creatorProcess ∧
    primaryEntrance.track.particleName = postStepEntrance.track.particleName ∧
    (UserSteppingAction sampleEnv
      (UserSteppingAction sampleEnv
        (UserSteppingAction sampleEnv (EICG4dRICHSteppingAction 1) primaryEntrance false).state
        postStepEntrance false).state
      primaryEntrance false).state.storage.map (fun p => p.2.hit_subtype_name) =
      ["primary", "postStep", "postStep"] := by
  decide

/-- C14 (amended): for any two accumulator states and any two finalizing steps
that agree on the hit type, on whether the track ID is 1 and on the particle
name, and, when the hit type is Entrance, on whether the subtype tag after the
creation phase is post-step entrance, the stamped subtype is the same; the
presence of a creator process plays no part. -/
theorem stored_subtype_function (env : Env) (s1 s2 : State) (a1 a2 : G4Step) (u1 u2 : Bool)
    (hs1 : (UserSteppingAction env s1 a1 u1).state.storage ≠ s1.storage)
    (hs2 : (UserSteppingAction env s2 a2 u2).state.storage ≠ s2.storage)
    (hc : stepClass a1 = stepClass a2)
    (hid : a1.track.trackID = 1 ↔ a2.track.trackID = 1)
    (hp : a1.track.particleName = a2.track.particleName)
    (ht : stepClass a1 = hEntrance →
      ((afterCreation env s1 a1).hitSubtype = entPostStep ↔
        (afterCreation env s2 a2).hitSubtype = entPostStep)) :
    (UserSteppingAction env s1 a1 u1).state.hitSubtype =
      (UserSteppingAction env s2 a2 u2).state.hitSubtype ∧
    ∃ (k1 : Int) (h1 : EICG4dRICHHit) (k2 : Int) (h2 : EICG4dRICHHit),
      (UserSteppingAction env s1 a1 u1).state.storage = s1.storage ++ [(k1, h1)] ∧
      (UserSteppingAction env s2 a2 u2).state.storage = s2.storage ++ [(k2, h2)] ∧
      h1.hit_subtype_name = h2.hit_subtype_name := by
  obtain ⟨_, _, _, hk1, hit1, _, _, _, hst1, hsub1⟩ := stored_hit_cases env s1 a1 u1 hs1
  obtain ⟨_, _, _, _, hit2, _, _, _, hst2, hsub2⟩ := stored_hit_cases env s2 a2 u2 hs2
  have hcases : stepClass a1 ≠ hIgnore →
      stepClass a1 = hEntrance ∨ stepClass a1 = hExit ∨ stepClass a1 = hPSST := by
    intro hk
    rcases stepClass_cases a1 with h | h | h | h
    · exact Or.inl h
    · exact Or.inr (Or.inl h)
    · exact Or.inr (Or.inr h)
    · exact absurd h hk
  have heq := classifySubtype_congr (stepClass a1) (afterCreation env s1 a1).hitSubtype
    (afterCreation env s2 a2).hitSubtype a1.track a2.track hcases hid hp ht hk1
  have hsub : (UserSteppingAction env s1 a1 u1).state.hitSubtype =
      (UserSteppingAction env s2 a2 u2).state.hitSubtype := by
    rw [hsub1, hsub2, ← hc, heq]
  refine ⟨hsub, _, _, _, _, hst1, hst2, ?_⟩
  rw [(storedHit_names env _ a1 _ hit1).2.1, (storedHit_names env _ a2 _ hit2).2.1,
    afterAccumulation_hitType, afterAccumulation_hitType, afterAccumulation_hitSubtype,
    afterAccumulation_hitSubtype, ← hc, heq]

/-- Witness for C14: the exit step of a secondary stores the same subtype
whether it starts from the fresh accumulator or from one with a hit open. -/
theorem stored_subtype_function_witness :
    (UserSteppingAction sampleEnv (EICG4dRICHSteppingAction 1) exitStep false).state.hitSubtype =
      (UserSteppingAction sampleEnv openState exitStep true).state.hitSubtype :=
  (stored_subtype_function sampleEnv (EICG4dRICHSteppingAction 1) openState exitStep exitStep
    false true (by decide) (by decide) rfl Iff.rfl rfl (fun _ => by decide)).1

/-- Counterexample for C15: three single steps of track 1 from the fresh
accumulator, each with a pre-volume name containing "World", a post-volume name
containing "dRICHvessel" and post-status GeomBoundary.  The first also matches
the photosensor pattern and is stored with type "psst"; the second has a
non-finite pre-point x-coordinate and ends fatally; the third carries a
`PHG4TrackUserInfoV1` and is stored with the user track ID 9. -/
theorem scenario_A_fails :
    (ambiguousEntrance.track.trackID = 1 ∧
      G4String.contains ambiguousEntrance.preStepPoint.volume.name "World" = true ∧
      G4String.contains ambiguousEntrance.postStepPoint.volume.name "dRICHvessel" = true ∧
      ambiguousEntrance.postStepPoint.stepStatus = G4StepStatus.fGeomBoundary ∧
      (UserSteppingAction sampleEnv (EICG4dRICHSteppingAction 1) ambiguousEntrance
        false).state.storage.map (fun p => p.2.hit_type_name) = ["psst"]) ∧
    (nanEntrance.track.trackID = 1 ∧
      G4String.contains nanEntrance.preStepPoint.volume.name "World" = true ∧
      G4String.contains nanEntrance.postStepPoint.volume.name "dRICHvessel" = true ∧
      nanEntrance.postStepPoint.stepStatus = G4StepStatus.fGeomBoundary ∧
      (UserSteppingAction sampleEnv (EICG4dRICHSteppingAction 1) nanEntrance false).isFatal =
        true) ∧
    (lineageEntrance.track.trackID = 1 ∧
      G4String.contains lineageEntrance.preStepPoint.volume.name "World" = true ∧
      G4String.contains lineageEntrance.postStepPoint.volume.name "dRICHvessel" = true ∧
      lineageEntrance.postStepPoint.stepStatus = G4StepStatus.fGeomBoundary ∧
      (UserSteppingAction sampleEnv (EICG4dRICHSteppingAction 1) lineageEntrance
        false).state.storage.map (fun p => p.2.trkid) = [9]) := by
  decide

/-- C15 (amended), scenario A: from the freshly constructed accumulator, a single
step of the primary track (ID 1, no attached information) whose pre-volume name
contains "World" and whose post-volume name contains "dRICHvessel", whose names
do not match the photosensor pattern, whose pre-point x-coordinate is finite
and whose post-status is GeomBoundary returns true, for every pre-status, and
adds exactly one hit to storage, with hit-type name "entrance", subtype name
"primary", process "primary", track ID 1 and zero accumulated energy. -/
theorem scenario_A_entrance (env : Env) (hcm : env.cm ≠ 0) (active : Int) (aStep : G4Step)
    (u : Bool)
    (hid : aStep.track.trackID = 1) (hl : noLineage aStep)
    (hW : G4String.contains aStep.preStepPoint.volume.name "World" = true)
    (hV : G4String.contains aStep.postStepPoint.volume.name "dRICHvessel" = true)
    (hP : ¬ (G4String.contains aStep.preStepPoint.volume.name "dRICHpetal" = true ∧
      G4String.contains aStep.postStepPoint.volume.name "dRICHpsst" = true))
    (hx : aStep.preStepPoint.position.x.isfinite = true)
    (hpost : aStep.postStepPoint.stepStatus = G4StepStatus.fGeomBoundary) :
    (UserSteppingAction env (EICG4dRICHSteppingAction active) aStep u).value = some true ∧
    ∃ h : EICG4dRICHHit,
      (UserSteppingAction env (EICG4dRICHSteppingAction active) aStep u).state.storage =
        [(env.GetPetal aStep.postStepPoint.volume, h)] ∧
      h.hit_type_name = "entrance" ∧ h.hit_subtype_name = "primary" ∧
      h.process = "primary" ∧ h.trkid = 1 ∧ h.edep = 0 ∧ h.eion = 0 := by
  have hcls : stepClass aStep = hEntrance := by
    unfold stepClass classifyHitType
    simp only [Bool.and_eq_true]
    rw [if_neg hP, if_pos ⟨hW, hV⟩]
  have hw : ¬ leavesWorld aStep := by
    simp only [leavesWorld, hpost]
    decide
  have ho : ¬ outsideFilter env aStep := fun h => h.2.1 hcls
  have hcp := afterCreation_fresh_entrance env active aStep hcls hl
  have hh : (afterCreation env (EICG4dRICHSteppingAction active) aStep).m_Hit =
      some (newStamped env aStep) := by
    rw [hcp]
    simp [InitHit, newStamped]
  have hfin : (newStamped env aStep).get_x0.isfinite = true := by
    simp only [newStamped, EICG4dRICHHit.get_x0, G4ThreeVector.div]
    cases hxv : aStep.preStepPoint.position.x with
    | finite v => simp [G4double.div, hcm, G4double.isfinite]
    | nonfinite => simp [hxv, G4double.isfinite] at hx
  have htrk : aStep.track.trackID =
      (afterCreation env (EICG4dRICHSteppingAction active) aStep).m_SaveTrackId := by
    rw [hcp, InitHit_saveTrackId]
  have hT : finalizeTrigger aStep = true := by
    simp [finalizeTrigger, hpost]
  have hk : (afterAccumulation env (EICG4dRICHSteppingAction active) aStep).hitType ≠
      hIgnore := by
    rw [afterAccumulation_hitType, hcls]
    decide
  have htag : (afterCreation env (EICG4dRICHSteppingAction active) aStep).hitSubtype = -1 := by
    rw [hcp, InitHit_hitSubtype]
    rfl
  have he : (afterAccumulation env (EICG4dRICHSteppingAction active) aStep).m_EdepSum = 0 := by
    simp [afterAccumulation, updateAccumulators_edep, hcp, InitHit, stepEnergy, hcls]
  have hi : (afterAccumulation env (EICG4dRICHSteppingAction active) aStep).m_EionSum = 0 := by
    simp [afterAccumulation, updateAccumulators_eion, hcp, InitHit, stepEnergy, hcls]
  rw [UserSteppingAction_ok env _ aStep u hw ho _ hh hfin htrk]
  obtain ⟨h1, _, _, _, _⟩ := saveHit_keep env _ aStep
    (petalOf env (stepClass aStep) aStep) _ hT hk
  obtain ⟨n1, n2, n3⟩ := storedHit_names env
    (afterAccumulation env (EICG4dRICHSteppingAction active) aStep) aStep
    (petalOf env (stepClass aStep) aStep) (newStamped env aStep)
  obtain ⟨_, _, e3, e4, e5⟩ := storedHit_entry env
    (afterAccumulation env (EICG4dRICHSteppingAction active) aStep) aStep
    (petalOf env (stepClass aStep) aStep) (newStamped env aStep)
  refine ⟨rfl, storedHit env (afterAccumulation env (EICG4dRICHSteppingAction active) aStep)
    aStep (petalOf env (stepClass aStep) aStep) (newStamped env aStep), ?_, ?_, ?_, ?_, ?_,
    ?_, ?_⟩
  · simp only [Outcome.state]
    rw [h1, afterAccumulation_storage]
    simp [EICG4dRICHSteppingAction, petalOf, hcls]
  · rw [n1, afterAccumulation_hitType, hcls]
    decide
  · rw [n2, afterAccumulation_hitType, afterAccumulation_hitSubtype, htag, hcls]
    simp [classifySubtype, hid, hitSubtypeStr]
  · rw [n3, afterAccumulation_hitType, afterAccumulation_hitSubtype, htag, hcls]
    simp [classifySubtype, hid, processName]
  · rw [e3]; exact hid
  · rw [e4, he]
  · rw [e5, hi]

/-- Witness for C15: scenario A in the sample detector. -/
theorem scenario_A_entrance_witness :
    (UserSteppingAction sampleEnv (EICG4dRICHSteppingAction 1) primaryEntrance false).value =
      some true ∧
    ∃ h : EICG4dRICHHit,
      (UserSteppingAction sampleEnv (EICG4dRICHSteppingAction 1) primaryEntrance
        false).state.storage =
        [(sampleEnv.GetPetal primaryEntrance.postStepPoint.volume, h)] ∧
      h.hit_type_name = "entrance" ∧ h.hit_subtype_name = "primary" ∧
      h.process = "primary" ∧ h.trkid = 1 ∧ h.edep = 0 ∧ h.eion = 0 :=
  scenario_A_entrance sampleEnv (by simp [sampleEnv]) 1 primaryEntrance false rfl rfl
    (by decide) (by decide) (by decide) (by decide) (by decide)

/-- C16: a processed step showing the "impossible step" pattern (pre-status
PostStepDoItProc, previous post-status GeomBoundary, classification not
Entrance) leaves the accumulator as it is in the creation phase, and when a hit
with finite entry x-coordinate is open under the step's track it passes both
checks, has its energy accumulated and returns true. -/
theorem impossible_step_not_fatal (env : Env) (s : State) (aStep : G4Step) (u : Bool)
    (hit : EICG4dRICHHit)
    (hw : ¬ leavesWorld aStep) (ho : ¬ outsideFilter env aStep)
    (hpre : aStep.preStepPoint.stepStatus = G4StepStatus.fPostStepDoItProc)
    (_hprev : s.m_SavePostStepStatus = G4StepStatus.fGeomBoundary.toInt)
    (he : stepClass aStep ≠ hEntrance)
    (hopen : s.m_Hit = some hit) (hfin : hit.get_x0.isfinite = true)
    (htrk : s.m_SaveTrackId = aStep.track.trackID) :
    afterCreation env s aStep = { s with hitType := stepClass aStep } ∧
    checksPass (afterCreation env s aStep) aStep ∧
    (UserSteppingAction env s aStep u).isFatal = false ∧
    (UserSteppingAction env s aStep u).value = some true ∧
    (UserSteppingAction env s aStep u).state.m_EdepSum =
      s.m_EdepSum + aStep.totalEnergyDeposit / env.GeV ∧
    (UserSteppingAction env s aStep u).state.m_EionSum =
      (if env.IsInDetector aStep.preStepPoint.volume > 0 then
        s.m_EionSum + (aStep.totalEnergyDeposit - aStep.nonIonizingEnergyDeposit) / env.GeV
      else s.m_EionSum) := by
  have hidle : afterCreation env s aStep = { s with hitType := stepClass aStep } :=
    afterCreation_idle env s aStep (by rw [hpre]; decide) (by rw [hpre]; decide) he
  have hc : checksPass (afterCreation env s aStep) aStep := by
    rw [hidle]
    exact ⟨⟨hit, hopen, hfin⟩, htrk.symm⟩
  obtain ⟨e1, e2⟩ := sums_after_step env s aStep u hw ho hc
  obtain ⟨⟨hit', hh, hfin'⟩, htrk'⟩ := hc
  refine ⟨hidle, ⟨⟨hit', hh, hfin'⟩, htrk'⟩, ?_, ?_, ?_, ?_⟩
  · rw [UserSteppingAction_ok env s aStep u hw ho hit' hh hfin' htrk']
    rfl
  · rw [UserSteppingAction_ok env s aStep u hw ho hit' hh hfin' htrk']
    rfl
  · rw [e1, hidle]
    simp [stepEnergy, he]
  · rw [e2, hidle]
    simp [stepEnergy, he]

/-- Witness for C16: the hit of track 5 is open, the previous step ended on a
boundary, and a step of track 5 inside a petal arrives with pre-status
PostStepDoItProc. -/
theorem impossible_step_not_fatal_witness :
    (UserSteppingAction sampleEnv afterBoundaryState impossibleStep false).isFatal = false ∧
    (UserSteppingAction sampleEnv afterBoundaryState impossibleStep false).value = some true ∧
    (UserSteppingAction sampleEnv afterBoundaryState impossibleStep false).state.m_EdepSum =
      afterBoundaryState.m_EdepSum + impossibleStep.totalEnergyDeposit / sampleEnv.GeV :=
  have h := impossible_step_not_fatal sampleEnv afterBoundaryState impossibleStep false
    { clearedHit with trkid := 5, position0 := origin }
    (by decide) (by decide) rfl rfl (by decide) rfl rfl rfl
  ⟨h.2.2.1, h.2.2.2.1, h.2.2.2.2.1⟩

/-- C17: on a processed, non-fatal step whose creation phase leaves both sums as
they were, with non-negative total deposit and non-negative ionizing deposit
(total minus non-ionizing) and a non-negative energy unit, neither sum
decreases, and the ionizing sum is unchanged whenever the pre-volume is not
active. -/
theorem sums_monotone (env : Env) (s : State) (aStep : G4Step) (u : Bool)
    (hG : 0 ≤ env.GeV)
    (hw : ¬ leavesWorld aStep) (ho : ¬ outsideFilter env aStep)
    (hf : (UserSteppingAction env s aStep u).isFatal = false)
    (hne : (afterCreation env s aStep).m_EdepSum = s.m_EdepSum)
    (hni : (afterCreation env s aStep).m_EionSum = s.m_EionSum)
    (ht : 0 ≤ aStep.totalEnergyDeposit)
    (hion : 0 ≤ aStep.totalEnergyDeposit - aStep.nonIonizingEnergyDeposit) :
    s.m_EdepSum ≤ (UserSteppingAction env s aStep u).state.m_EdepSum ∧
    s.m_EionSum ≤ (UserSteppingAction env s aStep u).state.m_EionSum ∧
    (env.IsInDetector aStep.preStepPoint.volume ≤ 0 →
      (UserSteppingAction env s aStep u).state.m_EionSum = s.m_EionSum) := by
  have hc := checksPass_of_not_fatal env s aStep u hw ho hf
  obtain ⟨e1, e2⟩ := sums_after_step env s aStep u hw ho hc
  rw [e1, e2, hne, hni]
  have h1 : 0 ≤ (stepEnergy env (stepClass aStep) aStep).1 := by
    unfold stepEnergy
    split_ifs
    · exact div_nonneg ht hG
    · exact le_refl 0
  have h2 : 0 ≤ (stepEnergy env (stepClass aStep) aStep).2 := by
    unfold stepEnergy
    split_ifs
    · exact div_nonneg hion hG
    · exact le_refl 0
  refine ⟨le_add_of_nonneg_right h1, ?_, ?_⟩
  · split_ifs
    · exact le_add_of_nonneg_right h2
    · exact le_refl _
  · intro hle
    rw [if_neg (not_lt.mpr hle)]

/-- Witness for C17: a step of track 5 inside a petal, with the hit of track 5
open. -/
theorem sums_monotone_witness :
    openState.m_EdepSum ≤
      (UserSteppingAction sampleEnv openState innerStep false).state.m_EdepSum ∧
    openState.m_EionSum ≤
      (UserSteppingAction sampleEnv openState innerStep false).state.m_EionSum ∧
    (sampleEnv.IsInDetector innerStep.preStepPoint.volume ≤ 0 →
      (UserSteppingAction sampleEnv openState innerStep false).state.m_EionSum =
        openState.m_EionSum) :=
  sums_monotone sampleEnv openState innerStep false (by simp [sampleEnv]) (by decide)
    (by decide) (by decide) rfl rfl (by simp [innerStep, sampleStep])
    (by simp [innerStep, sampleStep]; norm_num)

/-- C18: on a processed step with pre-status PostStepDoItProc and classification
Entrance, whatever hit is open is dropped without being added to storage: the
creation phase leaves a new record initialised from the step (entry position
and time from the pre-point, track ID of the step), saves the step's track ID,
zeroes both sums, and sets the subtype tag to post-step entrance exactly when
the previous post-status was GeomBoundary (the tag is untouched otherwise); the
call stores nothing or the new record, and a non-fatal call leaves both sums at
zero. -/
theorem poststep_entrance_new_hit (env : Env) (s : State) (aStep : G4Step) (u : Bool)
    (old : EICG4dRICHHit) (_hopen : s.m_Hit = some old)
    (hw : ¬ leavesWorld aStep)
    (hpre : aStep.preStepPoint.stepStatus = G4StepStatus.fPostStepDoItProc)
    (hcls : stepClass aStep = hEntrance) :
    (afterCreation env s aStep).m_Hit = some (newStamped env aStep) ∧
    (afterCreation env s aStep).m_SaveTrackId = aStep.track.trackID ∧
    (afterCreation env s aStep).m_EdepSum = 0 ∧
    (afterCreation env s aStep).m_EionSum = 0 ∧
    (afterCreation env s aStep).storage = s.storage ∧
    (s.m_SavePostStepStatus = G4StepStatus.fGeomBoundary.toInt →
      (afterCreation env s aStep).hitSubtype = entPostStep) ∧
    (s.m_SavePostStepStatus ≠ G4StepStatus.fGeomBoundary.toInt →
      (afterCreation env s aStep).hitSubtype = s.hitSubtype) ∧
    ((UserSteppingAction env s aStep u).state.storage = s.storage ∨
      ∃ k : Int, (UserSteppingAction env s aStep u).state.storage =
        s.storage ++
          [(k, storedHit env (afterAccumulation env s aStep) aStep k (newStamped env aStep))]) ∧
    ((UserSteppingAction env s aStep u).isFatal = false →
      (UserSteppingAction env s aStep u).state.m_EdepSum = 0 ∧
      (UserSteppingAction env s aStep u).state.m_EionSum = 0) := by
  have hcp := afterCreation_postStep_entrance env s aStep hpre hcls
  have ho : ¬ outsideFilter env aStep := fun h => h.2.1 hcls
  have hh : (afterCreation env s aStep).m_Hit = some (newStamped env aStep) := by
    rw [hcp]
    simp [InitHit, newStamped]
  have he : (afterCreation env s aStep).m_EdepSum = 0 := by
    rw [hcp]
    simp [InitHit]
  have hi : (afterCreation env s aStep).m_EionSum = 0 := by
    rw [hcp]
    simp [InitHit]
  refine ⟨hh, ?_, he, hi, afterCreation_storage env s aStep, ?_, ?_, ?_, ?_⟩
  · rw [hcp, InitHit_saveTrackId]
  · intro hg
    rw [hcp, InitHit_hitSubtype]
    simp [hg]
  · intro hg
    rw [hcp, InitHit_hitSubtype]
    simp [hg]
  · by_cases hne : (UserSteppingAction env s aStep u).state.storage = s.storage
    · exact Or.inl hne
    · right
      obtain ⟨_, _, _, _, hit, hh2, _, _, hst, _⟩ := stored_hit_cases env s aStep u hne
      rw [hh] at hh2
      cases hh2
      exact ⟨_, hst⟩
  · intro hf
    have hc := checksPass_of_not_fatal env s aStep u hw ho hf
    obtain ⟨e1, e2⟩ := sums_after_step env s aStep u hw ho hc
    rw [e1, e2, he, hi]
    simp [stepEnergy, hcls]

/-- Witness for C18: the hit of track 5 is open and the previous step ended on a
boundary when the primary track enters the vessel with pre-status
PostStepDoItProc. -/
theorem poststep_entrance_new_hit_witness :
    (afterCreation sampleEnv afterBoundaryState postStepEntrance).m_Hit =
      some (newStamped sampleEnv postStepEntrance) ∧
    (afterCreation sampleEnv afterBoundaryState postStepEntrance).m_SaveTrackId =
      postStepEntrance.track.trackID ∧
    (afterCreation sampleEnv afterBoundaryState postStepEntrance).hitSubtype = entPostStep ∧
    (UserSteppingAction sampleEnv afterBoundaryState postStepEntrance false).state.m_EdepSum =
      0 :=
  have h := poststep_entrance_new_hit sampleEnv afterBoundaryState postStepEntrance false
    { clearedHit with trkid := 5, position0 := origin } rfl (by decide) rfl (by decide)
  ⟨h.1, h.2.1, h.2.2.2.2.2.1 rfl, (h.2.2.2.2.2.2.2.2 (by decide)).1⟩

/-- C19: a step whose post-status is WorldBoundary returns false and never ends
fatally; it adds nothing to storage, resets the open hit in place if there is
one (it stays allocated), and leaves the energy sums, the saved track ID, the
saved statuses and volumes and both classifiers as they were (classifier,
checks and finalizer are not run); hence a call that stores a hit has a
post-status other than WorldBoundary, and its trigger is GeomBoundary,
AtRestDoItProc or StopAndKill. -/
theorem world_boundary_step (env : Env) (s : State) (aStep : G4Step) (u : Bool) :
    (aStep.postStepPoint.stepStatus = G4StepStatus.fWorldBoundary →
      UserSteppingAction env s aStep u =
          Outcome.returned false { s with m_Hit := s.m_Hit.map env.Reset } ∧
        (UserSteppingAction env s aStep u).isFatal = false ∧
        (UserSteppingAction env s aStep u).value = some false ∧
        (UserSteppingAction env s aStep u).state.storage = s.storage ∧
        (∀ h, s.m_Hit = some h →
          (UserSteppingAction env s aStep u).state.m_Hit = some (env.Reset h)) ∧
        (s.m_Hit = none → (UserSteppingAction env s aStep u).state.m_Hit = none) ∧
        (UserSteppingAction env s aStep u).state.m_EdepSum = s.m_EdepSum ∧
        (UserSteppingAction env s aStep u).state.m_EionSum = s.m_EionSum ∧
        (UserSteppingAction env s aStep u).state.m_SaveTrackId = s.m_SaveTrackId ∧
        (UserSteppingAction env s aStep u).state.m_SavePreStepStatus = s.m_SavePreStepStatus ∧
        (UserSteppingAction env s aStep u).state.m_SavePostStepStatus =
          s.m_SavePostStepStatus ∧
        (UserSteppingAction env s aStep u).state.hitType = s.hitType ∧
        (UserSteppingAction env s aStep u).state.hitSubtype = s.hitSubtype) ∧
    ((UserSteppingAction env s aStep u).state.storage ≠ s.storage →
      aStep.postStepPoint.stepStatus ≠ G4StepStatus.fWorldBoundary ∧
      (aStep.postStepPoint.stepStatus = G4StepStatus.fGeomBoundary ∨
        aStep.postStepPoint.stepStatus = G4StepStatus.fAtRestDoItProc ∨
        aStep.track.trackStatus = G4TrackStatus.fStopAndKill)) := by
  refine ⟨?_, ?_⟩
  · intro hw
    rw [UserSteppingAction_world env s aStep u hw]
    refine ⟨rfl, rfl, rfl, rfl, ?_, ?_, rfl, rfl, rfl, rfl, rfl, rfl, rfl⟩
    · intro h hh
      simp [Outcome.state, hh]
    · intro hh
      simp [Outcome.state, hh]
  · intro hne
    obtain ⟨hw, _, ht, _⟩ := stored_hit_cases env s aStep u hne
    exact ⟨hw, (finalizeTrigger_iff aStep hw).mp ht⟩

/-- Witness for C19: with a hit of track 5 open and the classifier left on
photosensor, a step that leaves the world returns false, stores nothing and
keeps the hit allocated. -/
theorem world_boundary_step_witness :
    worldStep.postStepPoint.stepStatus = G4StepStatus.fWorldBoundary ∧
    (UserSteppingAction sampleEnv { openState with hitType := hPSST } worldStep false).value =
      some false ∧
    (UserSteppingAction sampleEnv { openState with hitType := hPSST } worldStep
      false).state.storage = openState.storage ∧
    (UserSteppingAction sampleEnv { openState with hitType := hPSST } worldStep
      false).state.m_Hit =
      some (sampleEnv.Reset { clearedHit with trkid := 5, position0 := origin }) ∧
    ((UserSteppingAction sampleEnv (EICG4dRICHSteppingAction 1) photonStep false).state.storage ≠
        (EICG4dRICHSteppingAction 1).storage ∧
      photonStep.postStepPoint.stepStatus ≠ G4StepStatus.fWorldBoundary) :=
  have h := (world_boundary_step sampleEnv { openState with hitType := hPSST } worldStep
    false).1 rfl
  ⟨rfl, h.2.2.1, h.2.2.2.1, h.2.2.2.2.1 _ rfl, by decide,
    ((world_boundary_step sampleEnv (EICG4dRICHSteppingAction 1) photonStep false).2
      (by decide)).1⟩

/-- C20: on a same-track reuse in the normal cases of the creation phase (open
hit carrying the step's track ID, pre-status other than PostStepDoItProc), the
record's entry position and time are overwritten with the pre-point of the
current step while both sums keep what earlier steps deposited; a hit stored by
this call carries that entry point together with the earlier sums plus the
energy of the step. -/
theorem reuse_restamps_entry (env : Env) (s : State) (aStep : G4Step) (u : Bool)
    (h : EICG4dRICHHit)
    (hp : aStep.preStepPoint.stepStatus ≠ G4StepStatus.fPostStepDoItProc)
    (hr : aStep.preStepPoint.stepStatus = G4StepStatus.fGeomBoundary ∨
      aStep.preStepPoint.stepStatus = G4StepStatus.fUndefined ∨
      stepClass aStep = hEntrance)
    (hopen : s.m_Hit = some h) (hsame : h.trkid = aStep.track.trackID) :
    (∃ h' : EICG4dRICHHit, (afterCreation env s aStep).m_Hit = some h' ∧
      h' = entryStamped env aStep h ∧
      h'.position0 = aStep.preStepPoint.position.div env.cm ∧
      h'.t0 = aStep.preStepPoint.globalTime.div env.nanosecond) ∧
    (afterCreation env s aStep).m_EdepSum = s.m_EdepSum ∧
    (afterCreation env s aStep).m_EionSum = s.m_EionSum ∧
    ((UserSteppingAction env s aStep u).state.storage ≠ s.storage →
      ∃ (k : Int) (h' : EICG4dRICHHit),
        (UserSteppingAction env s aStep u).state.storage = s.storage ++ [(k, h')] ∧
        h'.position0 = aStep.preStepPoint.position.div env.cm ∧
        h'.t0 = aStep.preStepPoint.globalTime.div env.nanosecond ∧
        h'.edep = s.m_EdepSum + (stepEnergy env (stepClass aStep) aStep).1 ∧
        h'.eion =
          (if env.IsInDetector aStep.preStepPoint.volume > 0 then
            s.m_EionSum + (stepEnergy env (stepClass aStep) aStep).2
          else s.m_EionSum)) := by
  have hm : (afterCreation env s aStep).m_Hit = some (entryStamped env aStep h) := by
    rw [afterCreation_normal env s aStep hp hr]
    simp only [openHit, hopen, trackTruthInfo, InitHit, entryStamped, lineageTrackId]
    split <;> simp [hsame]
  obtain ⟨he, hi⟩ := creation_phase_reuse env s aStep hp hr h hopen hsame
  refine ⟨⟨_, hm, rfl, rfl, rfl⟩, he, hi, ?_⟩
  intro hne
  obtain ⟨_, _, _, _, hit, hh, _, _, hst, _⟩ := stored_hit_cases env s aStep u hne
  rw [hm] at hh
  cases hh
  obtain ⟨e1, e2, _, e4, e5⟩ := storedHit_entry env (afterAccumulation env s aStep) aStep
    (petalOf env (stepClass aStep) aStep) (entryStamped env aStep h)
  refine ⟨_, _, hst, ?_, ?_, ?_, ?_⟩
  · rw [e1]
    rfl
  · rw [e2]
    rfl
  · rw [e4]
    simp [afterAccumulation, updateAccumulators_edep, he]
  · rw [e5]
    simp [afterAccumulation, updateAccumulators_eion, hi]

/-- Witness for C20: the hit of track 5 is open with 7 GeV summed; a boundary
step of track 5 from a petal onto a photosensor restamps the entry point and
stores the hit with the earlier sums carried on. -/
theorem reuse_restamps_entry_witness :
    (afterCreation sampleEnv openState sensorStep).m_EdepSum = openState.m_EdepSum ∧
    ∃ (k : Int) (h' : EICG4dRICHHit),
      (UserSteppingAction sampleEnv openState sensorStep false).state.storage =
        openState.storage ++ [(k, h')] ∧
      h'.position0 = sensorStep.preStepPoint.position.div sampleEnv.cm ∧
      h'.t0 = sensorStep.preStepPoint.globalTime.div sampleEnv.nanosecond ∧
      h'.edep = openState.m_EdepSum + (stepEnergy sampleEnv (stepClass sensorStep) sensorStep).1 ∧
      h'.eion =
        (if sampleEnv.IsInDetector sensorStep.preStepPoint.volume > 0 then
          openState.m_EionSum + (stepEnergy sampleEnv (stepClass sensorStep) sensorStep).2
        else openState.m_EionSum) :=
  have h := reuse_restamps_entry sampleEnv openState sensorStep false
    { clearedHit with trkid := 5, position0 := origin } (by decide) (Or.inl rfl) rfl rfl
  ⟨h.2.1, h.2.2.2 (by decide)⟩

/-- Counterexample for C21: an optical photon whose creator process is named
"unknown" reaches a photosensor; the stored hit is a Photosensor hit with
process "unknown" although the track has a creator process. -/
theorem unknown_process_with_creator :
    stepClass unknownCreatorStep = hPSST ∧
    unknownCreatorStep.track.creatorProcess ≠ none ∧
    (UserSteppingAction sampleEnv (EICG4dRICHSteppingAction 1) unknownCreatorStep
      false).state.storage.map (fun p => p.2.process) = ["unknown"] := by
  decide

/-- C21 (amended): a hit handed to storage never carries the subtype "unknown"
nor the hit-type name "ignore": the classification of the finalizing step is
Entrance, Exit or Photosensor and the subtype is one of that classification's
own, so neither the default case of the subtype switch nor the fallback for an
unset subtype produces it; a stored non-Entrance hit with process "unknown" is
a Photosensor hit of a track without creator process or with a creator process
itself named "unknown", and every Photosensor hit of a track without creator
process gets process "unknown". -/
theorem stored_hit_never_unknown (env : Env) (s : State) (aStep : G4Step) (u : Bool)
    (hs : (UserSteppingAction env s aStep u).state.storage ≠ s.storage) :
    ∃ (k : Int) (h : EICG4dRICHHit),
      (UserSteppingAction env s aStep u).state.storage = s.storage ++ [(k, h)] ∧
      (stepClass aStep = hEntrance ∨ stepClass aStep = hExit ∨ stepClass aStep = hPSST) ∧
      h.hit_type_name ≠ "ignore" ∧ h.hit_subtype_name ≠ "unknown" ∧
      (UserSteppingAction env s aStep u).state.hitSubtype ≠ subtypeUnknown ∧
      (UserSteppingAction env s aStep u).state.hitSubtype ≠ -1 ∧
      (stepClass aStep = hEntrance →
        (UserSteppingAction env s aStep u).state.hitSubtype = entPrimary ∨
        (UserSteppingAction env s aStep u).state.hitSubtype = entSecondary ∨
        (UserSteppingAction env s aStep u).state.hitSubtype = entPostStep) ∧
      (stepClass aStep = hExit →
        (UserSteppingAction env s aStep u).state.hitSubtype = exPrimary ∨
        (UserSteppingAction env s aStep u).state.hitSubtype = exSecondary) ∧
      (stepClass aStep = hPSST →
        (UserSteppingAction env s aStep u).state.hitSubtype = psOptical ∨
        (UserSteppingAction env s aStep u).state.hitSubtype = psGamma ∨
        (UserSteppingAction env s aStep u).state.hitSubtype = psOther) ∧
      (stepClass aStep ≠ hEntrance → h.process = "unknown" →
        stepClass aStep = hPSST ∧
          (aStep.track.creatorProcess = none ∨
            aStep.track.creatorProcess = some "unknown")) ∧
      (stepClass aStep = hPSST → aStep.track.creatorProcess = none →
        h.process = "unknown") := by
  obtain ⟨_, _, _, hk, hit, _, _, _, hst, hsub⟩ := stored_hit_cases env s aStep u hs
  obtain ⟨n1, n2, n3⟩ := storedHit_names env (afterAccumulation env s aStep) aStep
    (petalOf env (stepClass aStep) aStep) hit
  rw [afterAccumulation_hitType] at n1
  rw [afterAccumulation_hitType, afterAccumulation_hitSubtype, ← hsub] at n2 n3
  obtain ⟨rE, rX, rP⟩ := classifySubtype_range (stepClass aStep)
    (afterCreation env s aStep).hitSubtype aStep.track
  rw [← hsub] at rE rX rP
  have hcls : stepClass aStep = hEntrance ∨ stepClass aStep = hExit ∨
      stepClass aStep = hPSST := by
    rcases stepClass_cases aStep with h | h | h | h
    · exact Or.inl h
    · exact Or.inr (Or.inl h)
    · exact Or.inr (Or.inr h)
    · exact absurd h hk
  have hrange : (UserSteppingAction env s aStep u).state.hitSubtype = entPrimary ∨
      (UserSteppingAction env s aStep u).state.hitSubtype = entSecondary ∨
      (UserSteppingAction env s aStep u).state.hitSubtype = entPostStep ∨
      (UserSteppingAction env s aStep u).state.hitSubtype = exPrimary ∨
      (UserSteppingAction env s aStep u).state.hitSubtype = exSecondary ∨
      (UserSteppingAction env s aStep u).state.hitSubtype = psOptical ∨
      (UserSteppingAction env s aStep u).state.hitSubtype = psGamma ∨
      (UserSteppingAction env s aStep u).state.hitSubtype = psOther := by
    rcases hcls with h | h | h
    · rcases rE h with r | r | r <;> simp [r]
    · rcases rX h with r | r <;> simp [r]
    · rcases rP h with r | r | r <;> simp [r]
  refine ⟨_, _, hst, hcls, ?_, ?_, ?_, ?_, rE, rX, rP, ?_, ?_⟩
  · rw [n1]
    rcases hcls with h | h | h <;> rw [h] <;> decide
  · rw [n2]
    rcases hrange with r | r | r | r | r | r | r | r <;> rw [r] <;> decide
  · rcases hrange with r | r | r | r | r | r | r | r <;> rw [r] <;> decide
  · rcases hrange with r | r | r | r | r | r | r | r <;> rw [r] <;> decide
  · intro hne hp
    rw [n3] at hp
    rcases hcls with h | h | h
    · exact absurd h hne
    · rw [h] at hp
      simp [processName] at hp
    · refine ⟨h, ?_⟩
      rw [h] at hp
      cases hcp : aStep.track.creatorProcess with
      | none => exact Or.inl rfl
      | some p =>
        right
        simp [processName, hcp] at hp
        rw [hp]
  · intro hP hnone
    rw [n3, hP]
    simp [processName, hnone]

/-- Witness for C21: an optical photon of a track without creator process
reaches a photosensor from the fresh accumulator; the stored hit has a subtype
other than "unknown", a type other than "ignore" and process "unknown". -/
theorem stored_hit_never_unknown_witness :
    (UserSteppingAction sampleEnv (EICG4dRICHSteppingAction 1) orphanPhotonStep
        false).state.storage ≠ (EICG4dRICHSteppingAction 1).storage ∧
    ∃ (k : Int) (h : EICG4dRICHHit),
      (UserSteppingAction sampleEnv (EICG4dRICHSteppingAction 1) orphanPhotonStep
        false).state.storage = (EICG4dRICHSteppingAction 1).storage ++ [(k, h)] ∧
      h.hit_type_name ≠ "ignore" ∧ h.hit_subtype_name ≠ "unknown" ∧
      h.process = "unknown" :=
  ⟨by decide,
    match stored_hit_never_unknown sampleEnv (EICG4dRICHSteppingAction 1) orphanPhotonStep
      false (by decide) with
    | ⟨k, h, hst, _, ht, hn, _, _, _, _, _, _, hp⟩ =>
      ⟨k, h, hst, ht, hn, hp (by decide) rfl⟩⟩

end DRich
